import Mathlib

/-!
Verification development for the semantic-analysis and IR-emission core of
the RuC compiler fork (AST builder in `builder.c`, LLVM-style IR emitter in
`llvmgen.c`).  The development is a shallow embedding: the C data structures
and functions are translated into executable Lean definitions, and the
specified properties are proved or refuted about those definitions.

Conventions used throughout:
* `item_t` (the machine integer used for node arguments, type ids, label
  numbers and literal payloads) is modelled as `Int` together with explicit
  64-bit two's-complement wrapping where the C performs machine arithmetic.
* Types are integer ids (`ItemT`), negative for the fixed primitive prefix
  and nonnegative as indices into a side table, exactly as in the C sources
  (the table lives in the `syntax` structure there).  The type-query helpers
  of `types.c` are not part of the given sources; they are modelled from the
  specification (spec section 3) and are marked as such.
* Fallible construction returns the distinguished broken node, mirroring
  `node_broken()`; diagnostics are returned explicitly as lists.
-/

namespace RuC

/-- Item type: the machine integer of the compiler (`item_t`). -/
abbrev ItemT := Int

/-- Source location, a byte span (`location` in the C sources). -/
structure Loc where
  b : Nat
  e : Nat
deriving DecidableEq, Repr

/-- Number of value bits of `item_t`.  Modelled from the spec: the sources do
not fix the width (`vector.h` is not part of the given sources); a 64-bit
two's-complement machine integer is assumed. -/
def itemBitWidth : Nat := 64

/-- Wrap an unbounded integer to 64-bit two's-complement range. -/
def itemWrap (z : Int) : Int := (z + 2 ^ 63) % 2 ^ 64 - 2 ^ 63

/-- Unsigned 64-bit pattern of a two's-complement value. -/
def itemPattern (z : Int) : Nat := (z % 2 ^ 64).toNat

/-- Bitwise conjunction on nonnegative patterns, by fuel over the bits. -/
def patAnd : Nat → Nat → Nat → Nat
  | 0, _, _ => 0
  | fuel + 1, a, b =>
    (if a % 2 = 1 && b % 2 = 1 then 1 else 0) + 2 * patAnd fuel (a / 2) (b / 2)

/-- Bitwise disjunction on nonnegative patterns, by fuel over the bits. -/
def patOr : Nat → Nat → Nat → Nat
  | 0, _, _ => 0
  | fuel + 1, a, b =>
    (if a % 2 = 1 || b % 2 = 1 then 1 else 0) + 2 * patOr fuel (a / 2) (b / 2)

/-- Bitwise exclusive disjunction on nonnegative patterns. -/
def patXor : Nat → Nat → Nat → Nat
  | 0, _, _ => 0
  | fuel + 1, a, b =>
    (if a % 2 ≠ b % 2 then 1 else 0) + 2 * patXor fuel (a / 2) (b / 2)

/-- C `*` on `item_t`: two's-complement product. -/
def mulItem (a b : Int) : Int := itemWrap (a * b)

/-- C `+` on `item_t`: two's-complement sum. -/
def addItem (a b : Int) : Int := itemWrap (a + b)

/-- C `-` on `item_t`: two's-complement difference. -/
def subItem (a b : Int) : Int := itemWrap (a - b)

/-- C `/` on `item_t`: truncating division.  A zero divisor is undefined
behavior in C (`SIGFPE` on mainstream hosts); the Lean totalization returns
`0` there, and no theorem below relies on that value. -/
def divItem (a b : Int) : Int := itemWrap (Int.tdiv a b)

/-- C `%` on `item_t`: truncating remainder; zero divisor as for `divItem`. -/
def remItem (a b : Int) : Int := itemWrap (Int.tmod a b)

/-- C `<<` on `item_t`, for shift amounts in `[0, 64)`; other amounts are
undefined behavior in C and are excluded by hypotheses below. -/
def shlItem (a b : Int) : Int := itemWrap (a * 2 ^ b.toNat)

/-- C `>>` on `item_t` (arithmetic shift, the behavior of mainstream
compilers), for shift amounts in `[0, 64)`. -/
def shrItem (a b : Int) : Int := Int.fdiv a (2 ^ b.toNat)

/-- C `&` on `item_t`, through the two's-complement bit patterns. -/
def andItem (a b : Int) : Int :=
  itemWrap (patAnd itemBitWidth (itemPattern a) (itemPattern b))

/-- C `|` on `item_t`. -/
def orItem (a b : Int) : Int :=
  itemWrap (patOr itemBitWidth (itemPattern a) (itemPattern b))

/-- C `^` on `item_t`. -/
def xorItem (a b : Int) : Int :=
  itemWrap (patXor itemBitWidth (itemPattern a) (itemPattern b))

/-!
Type model.  Primitive type ids form a fixed negative prefix; composite types
are nonnegative indices into the side table (spec section 3: each distinct
composite type has exactly one id).  The concrete numeric values of the
primitive ids are not visible in the given sources; distinct constants are
chosen here, which is all the code relies on.
-/

/-- Type id of `void`. -/
def TYPE_VOID : ItemT := -1

/-- Type id of the boolean type. -/
def TYPE_BOOLEAN : ItemT := -2

/-- Type id of the character type. -/
def TYPE_CHARACTER : ItemT := -3

/-- Type id of the integer type. -/
def TYPE_INTEGER : ItemT := -4

/-- Type id of the floating type. -/
def TYPE_FLOATING : ItemT := -5

/-- Type id of the null-pointer type. -/
def TYPE_NULL_POINTER : ItemT := -6

/-- Type id of the file type. -/
def TYPE_FILE : ItemT := -7

/-- Type id of the vararg pseudo-type. -/
def TYPE_VARARG : ItemT := -8

/-- Composite type records of the side table (spec section 3): pointer,
array, structure (ordered member list of name id and member type), function
(return type and parameter types), enum, and enum field. -/
inductive TypeRec where
  | pointerR (elem : ItemT)
  | arrayR (elem : ItemT)
  | structR (members : List (Nat × ItemT))
  | funcR (ret : ItemT) (params : List ItemT)
  | enumR
  | enumFieldR (enumId : ItemT)
deriving DecidableEq, Repr

/-- The part of the `syntax` structure the modelled functions consult: the
type side table, the string-literal pool (strings as code-point lists), and
the locality flags of the identifier table (the ids listed are the
function-scope identifiers, `ident_is_local`). -/
structure SynTab where
  types : List TypeRec
  strings : List (List Nat)
  locals : List Nat
deriving DecidableEq, Repr

/-- Type classes, the codomain of `type_get_class`. -/
inductive TypeClass where
  | voidC | booleanC | characterC | integerC | floatingC
  | nullPointerC | fileC | varargC
  | pointerC | arrayC | structureC | functionC | enumC | enumFieldC
  | undefinedC
deriving DecidableEq, Repr

/-- Look up a composite type record by its nonnegative id. -/
def type_lookup (sx : SynTab) (t : ItemT) : Option TypeRec :=
  if t < 0 then none else sx.types.get? t.toNat

/-- Class of a type id (`type_get_class`).  Modelled from the spec (the type
queries of `types.c` are not among the given sources): primitives map to
their own class, composite ids are classified by their table record. -/
def type_get_class (sx : SynTab) (t : ItemT) : TypeClass :=
  if t = TYPE_VOID then .voidC
  else if t = TYPE_BOOLEAN then .booleanC
  else if t = TYPE_CHARACTER then .characterC
  else if t = TYPE_INTEGER then .integerC
  else if t = TYPE_FLOATING then .floatingC
  else if t = TYPE_NULL_POINTER then .nullPointerC
  else if t = TYPE_FILE then .fileC
  else if t = TYPE_VARARG then .varargC
  else
    match type_lookup sx t with
    | some (.pointerR _) => .pointerC
    | some (.arrayR _) => .arrayC
    | some (.structR _) => .structureC
    | some (.funcR _ _) => .functionC
    | some .enumR => .enumC
    | some (.enumFieldR _) => .enumFieldC
    | none => .undefinedC

/-- Integer-like types.  Modelled from the spec (spec section 3: arithmetic
is integer-like or floating; booleans and characters behave as integers in
initialisation and `printf` checking). -/
def type_is_integer (sx : SynTab) (t : ItemT) : Bool :=
  match type_get_class sx t with
  | .booleanC | .characterC | .integerC => true
  | _ => false

/-- Floating test; in the C sources this query does not consult the table. -/
def type_is_floating (t : ItemT) : Bool := t = TYPE_FLOATING

/-- Arithmetic types.  Modelled from the spec: integer-like, floating, and
enum values (which the builder folds as integers). -/
def type_is_arithmetic (sx : SynTab) (t : ItemT) : Bool :=
  type_is_integer sx t || type_is_floating t ||
    (match type_get_class sx t with
     | .enumC | .enumFieldC => true
     | _ => false)

/-- Pointer test. -/
def type_is_pointer (sx : SynTab) (t : ItemT) : Bool :=
  type_get_class sx t = .pointerC

/-- Null-pointer test; does not consult the table in the C sources. -/
def type_is_null_pointer (t : ItemT) : Bool := t = TYPE_NULL_POINTER

/-- Scalar types (spec section 3: arithmetic, pointer, or null pointer). -/
def type_is_scalar (sx : SynTab) (t : ItemT) : Bool :=
  type_is_arithmetic sx t || type_is_pointer sx t || type_is_null_pointer t

/-- Array test. -/
def type_is_array (sx : SynTab) (t : ItemT) : Bool :=
  type_get_class sx t = .arrayC

/-- Structure test. -/
def type_is_structure (sx : SynTab) (t : ItemT) : Bool :=
  type_get_class sx t = .structureC

/-- Function test. -/
def type_is_function (sx : SynTab) (t : ItemT) : Bool :=
  type_get_class sx t = .functionC

/-- Enum test. -/
def type_is_enum (sx : SynTab) (t : ItemT) : Bool :=
  type_get_class sx t = .enumC

/-- Enum-field test. -/
def type_is_enum_field (sx : SynTab) (t : ItemT) : Bool :=
  type_get_class sx t = .enumFieldC

/-- Void test; in the C sources this query does not consult the table. -/
def type_is_void (t : ItemT) : Bool := t = TYPE_VOID

/-- Locality of an identifier (`ident_is_local`, over the identifier table). -/
def ident_is_local (sx : SynTab) (id : Nat) : Bool :=
  sx.locals.contains id

/-- Element type of an array type id. -/
def type_array_get_element_type (sx : SynTab) (t : ItemT) : ItemT :=
  match type_lookup sx t with
  | some (.arrayR elem) => elem
  | _ => 0

/-- Element type of a pointer type id. -/
def type_pointer_get_element_type (sx : SynTab) (t : ItemT) : ItemT :=
  match type_lookup sx t with
  | some (.pointerR elem) => elem
  | _ => 0

/-- Member count of a structure type id. -/
def type_structure_get_member_amount (sx : SynTab) (t : ItemT) : Nat :=
  match type_lookup sx t with
  | some (.structR members) => members.length
  | _ => 0

/-- Member type at an index of a structure type id. -/
def type_structure_get_member_type (sx : SynTab) (t : ItemT) (i : Nat) : ItemT :=
  match type_lookup sx t with
  | some (.structR members) => ((members.get? i).map Prod.snd).getD 0
  | _ => 0

/-- Ordered member types of a structure type id. -/
def type_structure_member_types (sx : SynTab) (t : ItemT) : List ItemT :=
  match type_lookup sx t with
  | some (.structR members) => members.map Prod.snd
  | _ => []

/-- Return type of a function type id. -/
def type_function_get_return_type (sx : SynTab) (t : ItemT) : ItemT :=
  match type_lookup sx t with
  | some (.funcR ret _) => ret
  | _ => 0

/-- The string type: `pointer(char)` (spec section 3, an alias).  The C
`type_string` deduplicates through the table; here the table entry is looked
up, and a table not containing it yields the id it would be assigned. -/
def type_string (sx : SynTab) : ItemT :=
  match sx.types.indexOf? (TypeRec.pointerR TYPE_CHARACTER) with
  | some i => (i : Int)
  | none => (sx.types.length : Int)

/-- String test: the string type is `pointer(char)`. -/
def type_is_string (sx : SynTab) (t : ItemT) : Bool :=
  type_lookup sx t = some (.pointerR TYPE_CHARACTER)

/-- String pool lookup (`string_get`), as a code-point list. -/
def string_get (sx : SynTab) (index : Nat) : List Nat :=
  (sx.strings.get? index).getD []


/-!
Builder-side AST.  Nodes are modelled as values; the distinguished broken
node is a constructor.  The expression classes mirror `expression_get_class`
for the node kinds the modelled builder functions inspect.
-/

/-- Binary operator codes (`binary_t`). -/
inductive BinOp where
  | mulB | divB | remB | addB | subB | shlB | shrB
  | ltB | gtB | leB | geB | eqB | neB
  | andB | xorB | orB | logAnd | logOr
  | assignB
  | mulAssign | divAssign | remAssign | addAssign | subAssign
  | shlAssign | shrAssign | andAssign | xorAssign | orAssign
  | commaB
deriving DecidableEq, Repr

/-- True for the assignment operator family (`operation_is_assignment`). -/
def operation_is_assignment : BinOp → Bool
  | .assignB | .mulAssign | .divAssign | .remAssign | .addAssign
  | .subAssign | .shlAssign | .shrAssign | .andAssign | .xorAssign
  | .orAssign => true
  | _ => false

/-- Unary operator codes (`unary_t`), as far as the model needs them. -/
inductive UnOp where
  | postinc | postdec | preinc | predec
  | address | indirection
  | absU | minusU | notU | lognot | upb
deriving DecidableEq, Repr

/-- Literal payloads.  Doubles are modelled as rationals (exact for the
integer-to-float rewrites the builder performs on the witness range).  A
floating payload occupies two raw integer-sized node arguments in the C node
store; reading it back through the integer getter yields a layout value, see
`expression_literal_get_integer`. -/
inductive Lit where
  | intL (v : Int)
  | boolL (b : Bool)
  | charL (c : Int)
  | floatL (v : Rat)
  | strL (index : Nat)
  | nullL
deriving DecidableEq, Repr

/-- Expression classes (`expression_get_class` codomain, restricted to the
classes the modelled functions distinguish). -/
inductive ExprClass where
  | literalC | identifierC | unaryC | binaryC | castC | callC
  | initializerC | brokenC
  | subscriptC | memberC | ternaryC
deriving DecidableEq, Repr

/-- Builder-side expression nodes.  Each node carries its type id and source
span as the C nodes do;  lvalue category is recovered by
`expression_is_lvalue` below. -/
inductive BExpr where
  | broken
  | literal (ty : ItemT) (val : Lit) (loc : Loc)
  | identifier (ty : ItemT) (id : Nat) (loc : Loc)
  | unaryB (ty : ItemT) (op : UnOp) (operand : BExpr) (loc : Loc)
  | binaryB (ty : ItemT) (lhs rhs : BExpr) (op : BinOp) (loc : Loc)
  | castB (target source : ItemT) (operand : BExpr) (loc : Loc)
  | callB (ty : ItemT) (callee : BExpr) (args : List BExpr) (loc : Loc)
  | initializerB (ty : ItemT) (subs : List BExpr) (loc : Loc)
deriving Repr

/-- Node correctness (`node_is_correct`): everything but the broken node. -/
def node_is_correct : BExpr → Bool
  | .broken => false
  | _ => true

/-- Class of a node. -/
def expression_get_class : BExpr → ExprClass
  | .broken => .brokenC
  | .literal _ _ _ => .literalC
  | .identifier _ _ _ => .identifierC
  | .unaryB _ _ _ _ => .unaryC
  | .binaryB _ _ _ _ _ => .binaryC
  | .castB _ _ _ _ => .castC
  | .callB _ _ _ _ => .callC
  | .initializerB _ _ _ => .initializerC

/-- Type of a node (`expression_get_type`); a cast node's type is its target
type.  The broken node yields `0`, never consulted on correct paths. -/
def expression_get_type : BExpr → ItemT
  | .broken => 0
  | .literal ty _ _ => ty
  | .identifier ty _ _ => ty
  | .unaryB ty _ _ _ => ty
  | .binaryB ty _ _ _ _ => ty
  | .castB target _ _ _ => target
  | .callB ty _ _ _ => ty
  | .initializerB ty _ _ => ty

/-- Source span of a node (`node_get_location`). -/
def node_get_location : BExpr → Loc
  | .broken => ⟨0, 0⟩
  | .literal _ _ loc => loc
  | .identifier _ _ loc => loc
  | .unaryB _ _ _ loc => loc
  | .binaryB _ _ _ _ loc => loc
  | .castB _ _ _ loc => loc
  | .callB _ _ _ loc => loc
  | .initializerB _ _ loc => loc

/-- Lvalue category.  Modelled from the spec (spec section 3 lvalue
invariants, restricted to the node kinds of this model): identifiers are
lvalues, indirection results are lvalues, everything else here is an rvalue. -/
def expression_is_lvalue : BExpr → Bool
  | .identifier _ _ _ => true
  | .unaryB _ .indirection _ _ => true
  | _ => false

/-- Integer payload getter (`expression_literal_get_integer`).  The C reads
the raw first payload argument of the node: exact for integer, boolean,
character and string-index payloads; for a floating literal it reads half of
the stored double's bit pattern, a layout-dependent value.  It is modelled as
`0` (the low machine word of small-integer doubles on a little-endian host);
no theorem below depends on which layout value is read. -/
def expression_literal_get_integer : BExpr → Int
  | .literal _ (.intL v) _ => v
  | .literal _ (.boolL b) _ => if b then 1 else 0
  | .literal _ (.charL c) _ => c
  | .literal _ (.strL index) _ => (index : Int)
  | .literal _ (.floatL _) _ => 0
  | _ => 0

/-- Boolean payload getter (`expression_literal_get_boolean`). -/
def expression_literal_get_boolean : BExpr → Bool
  | .literal _ (.boolL b) _ => b
  | _ => false

/-- Floating payload getter (`expression_literal_get_floating`). -/
def expression_literal_get_floating : BExpr → Rat
  | .literal _ (.floatL v) _ => v
  | _ => 0

/-- String-index payload getter (`expression_literal_get_string`). -/
def expression_literal_get_string : BExpr → Nat
  | .literal _ (.strL index) _ => index
  | _ => 0

/-- Integer literal constructor (`build_integer_literal_expression`). -/
def build_integer_literal_expression (v : Int) (loc : Loc) : BExpr :=
  .literal TYPE_INTEGER (.intL v) loc

/-- Boolean literal constructor (`build_boolean_literal_expression`). -/
def build_boolean_literal_expression (b : Bool) (loc : Loc) : BExpr :=
  .literal TYPE_BOOLEAN (.boolL b) loc

/-- Floating literal constructor (`build_floating_literal_expression`). -/
def build_floating_literal_expression (v : Rat) (loc : Loc) : BExpr :=
  .literal TYPE_FLOATING (.floatL v) loc

/-- String literal constructor (`build_string_literal_expression`). -/
def build_string_literal_expression (sx : SynTab) (index : Nat) (loc : Loc) : BExpr :=
  .literal (type_string sx) (.strL index) loc

/-- Plain binary node constructor (`expression_binary`). -/
def expression_binary (ty : ItemT) (lhs rhs : BExpr) (op : BinOp) (loc : Loc) : BExpr :=
  .binaryB ty lhs rhs op loc

/-- Assignment node constructor (`expression_assignment`); an assignment is a
binary-class node whose type is the left operand's type. -/
def expression_assignment (ty : ItemT) (lhs rhs : BExpr) (op : BinOp) (loc : Loc) : BExpr :=
  .binaryB ty lhs rhs op loc

/-- Call node constructor (`expression_call`). -/
def expression_call (ty : ItemT) (callee : BExpr) (args : List BExpr) (loc : Loc) : BExpr :=
  .callB ty callee args loc

/-- Cast node constructor (`expression_cast`). -/
def expression_cast (target source : ItemT) (operand : BExpr) (loc : Loc) : BExpr :=
  .castB target source operand loc

/-- Cast builder (`build_cast_expression` in `builder.c`).  When the target
differs from the source and the operand is a literal, the node is rewritten
in place to a floating literal carrying `(double)` of the integer payload
read from the node (the branch is written for the only cast the builder
inserts, int to float); otherwise a cast node is produced; equal types are a
no-op. -/
def build_cast_expression (target_type : ItemT) (expr : BExpr) : BExpr :=
  if node_is_correct expr = false then .broken
  else
    let source_type := expression_get_type expr
    let loc := node_get_location expr
    if target_type ≠ source_type then
      if expression_get_class expr = .literalC then
        .literal TYPE_FLOATING
          (.floatL ((expression_literal_get_integer expr : Int) : Rat)) loc
      else expression_cast target_type source_type expr loc
    else expr

/-- Usual arithmetic conversions (`usual_arithmetic_conversions` in
`builder.c`): with a floating side both operands are cast to floating and the
result type is floating, otherwise the result type is integer and the
operands are unchanged. -/
def usual_arithmetic_conversions (lhs rhs : BExpr) : ItemT × BExpr × BExpr :=
  if type_is_floating (expression_get_type lhs)
      || type_is_floating (expression_get_type rhs) then
    (TYPE_FLOATING, build_cast_expression TYPE_FLOATING lhs,
      build_cast_expression TYPE_FLOATING rhs)
  else (TYPE_INTEGER, lhs, rhs)

/-- Result of a fold attempt: the produced node together with flags recording
the `node_remove` calls performed on the left and right operand subtrees. -/
structure FoldResult where
  result : BExpr
  removedLHS : Bool
  removedRHS : Bool
deriving Repr

/-- Constant folding of binary expressions (`fold_binary_expression` in
`builder.c`).  Operands that are not both literals give an unfolded binary
node.  For integer or enum typed literal operands both operand nodes are
removed and the host `item_t` arithmetic is performed; the division and
remainder cases have no zero-divisor branch (a zero divisor is undefined
behavior of the compiler itself, see `divItem`). -/
def fold_binary_expression (sx : SynTab) (ty : ItemT) (lhs rhs : BExpr)
    (op : BinOp) (loc : Loc) : FoldResult :=
  if expression_get_class lhs ≠ .literalC || expression_get_class rhs ≠ .literalC then
    ⟨expression_binary ty lhs rhs op loc, false, false⟩
  else
    match type_get_class sx (expression_get_type lhs) with
    | .enumC | .integerC =>
      let left_value := expression_literal_get_integer lhs
      let right_value := expression_literal_get_integer rhs
      match op with
      | .mulB => ⟨build_integer_literal_expression (mulItem left_value right_value) loc, true, true⟩
      | .divB => ⟨build_integer_literal_expression (divItem left_value right_value) loc, true, true⟩
      | .remB => ⟨build_integer_literal_expression (remItem left_value right_value) loc, true, true⟩
      | .addB => ⟨build_integer_literal_expression (addItem left_value right_value) loc, true, true⟩
      | .subB => ⟨build_integer_literal_expression (subItem left_value right_value) loc, true, true⟩
      | .shlB => ⟨build_integer_literal_expression (shlItem left_value right_value) loc, true, true⟩
      | .shrB => ⟨build_integer_literal_expression (shrItem left_value right_value) loc, true, true⟩
      | .ltB => ⟨build_boolean_literal_expression (decide (left_value < right_value)) loc, true, true⟩
      | .gtB => ⟨build_boolean_literal_expression (decide (right_value < left_value)) loc, true, true⟩
      | .leB => ⟨build_boolean_literal_expression (decide (left_value ≤ right_value)) loc, true, true⟩
      | .geB => ⟨build_boolean_literal_expression (decide (right_value ≤ left_value)) loc, true, true⟩
      | .eqB => ⟨build_boolean_literal_expression (decide (left_value = right_value)) loc, true, true⟩
      | .neB => ⟨build_boolean_literal_expression (decide (left_value ≠ right_value)) loc, true, true⟩
      | .andB => ⟨build_integer_literal_expression (andItem left_value right_value) loc, true, true⟩
      | .xorB => ⟨build_integer_literal_expression (xorItem left_value right_value) loc, true, true⟩
      | .orB => ⟨build_integer_literal_expression (orItem left_value right_value) loc, true, true⟩
      | .logAnd => ⟨build_boolean_literal_expression (decide (left_value ≠ 0) && decide (right_value ≠ 0)) loc, true, true⟩
      | .logOr => ⟨build_boolean_literal_expression (decide (left_value ≠ 0) || decide (right_value ≠ 0)) loc, true, true⟩
      | _ => ⟨.broken, true, true⟩
    | .floatingC =>
      let left_value := expression_literal_get_floating lhs
      let right_value := expression_literal_get_floating rhs
      match op with
      | .mulB => ⟨build_floating_literal_expression (left_value * right_value) loc, true, true⟩
      | .divB => ⟨build_floating_literal_expression (left_value / right_value) loc, true, true⟩
      | .addB => ⟨build_floating_literal_expression (left_value + right_value) loc, true, true⟩
      | .subB => ⟨build_floating_literal_expression (left_value - right_value) loc, true, true⟩
      | .ltB => ⟨build_boolean_literal_expression (decide (left_value < right_value)) loc, true, true⟩
      | .gtB => ⟨build_boolean_literal_expression (decide (right_value < left_value)) loc, true, true⟩
      | .leB => ⟨build_boolean_literal_expression (decide (left_value ≤ right_value)) loc, true, true⟩
      | .geB => ⟨build_boolean_literal_expression (decide (right_value ≤ left_value)) loc, true, true⟩
      | .eqB => ⟨build_boolean_literal_expression (decide (left_value = right_value)) loc, true, true⟩
      | .neB => ⟨build_boolean_literal_expression (decide (left_value ≠ right_value)) loc, true, true⟩
      | _ => ⟨.broken, true, true⟩
    | _ => ⟨expression_binary ty lhs rhs op loc, false, false⟩

/-!
Diagnostics and assignment checking.
-/

/-- Diagnostic codes (the slice of the error taxonomy the modelled builder
functions can emit). -/
inductive Err where
  | wrong_init
  | wrong_init_in_actparam (expected actual : Nat)
  | typecheck_binary_expr
  | unassignable_expression
  | printf_fst_not_string
  | too_many_printf_args
  | wrong_printf_argument_amount
  | expected_format_specifier
  | unknown_format_specifier (specifier : Nat)
  | variable_deviation
deriving DecidableEq, Repr

mutual

/-- Assignment and initialisation checking (`check_assignment_operands` in
`builder.c`).  Returns the acceptance flag, the possibly rewritten
initializer node (the C rewrites it in place: cast insertion, initializer
type stamping), and the emitted diagnostics.  An incorrect (broken) node is
accepted immediately, before anything else is inspected. -/
def check_assignment_operands (sx : SynTab) (expected_type : ItemT)
    (ini : BExpr) : Bool × BExpr × List Err :=
  if node_is_correct ini = false then (true, ini, [])
  else
    match ini with
    | .initializerB ty0 subs loc =>
      if type_is_structure sx expected_type then
        let expected_inits := type_structure_get_member_amount sx expected_type
        if expected_inits ≠ subs.length then
          (false, .initializerB ty0 subs loc,
            [.wrong_init_in_actparam expected_inits subs.length])
        else
          match check_operand_list sx (type_structure_member_types sx expected_type) subs with
          | (true, subs2, errs) =>
            (true, .initializerB expected_type subs2 loc, errs)
          | (false, subs2, errs) =>
            (false, .initializerB ty0 subs2 loc, errs)
      else if type_is_array sx expected_type then
        let elem := type_array_get_element_type sx expected_type
        match check_operand_list sx (subs.map fun _ => elem) subs with
        | (true, subs2, errs) =>
          (true, .initializerB expected_type subs2 loc, errs)
        | (false, subs2, errs) =>
          (false, .initializerB ty0 subs2 loc, errs)
      else (false, .initializerB ty0 subs loc, [.wrong_init])
    | other =>
      let actual_type := expression_get_type other
      if type_is_floating expected_type && type_is_integer sx actual_type then
        (true, build_cast_expression expected_type other, [])
      else if type_is_enum sx expected_type && type_is_enum_field sx actual_type then
        (true, other, [])
      else if type_is_integer sx expected_type
          && (type_is_enum sx actual_type || type_is_enum_field sx actual_type) then
        (true, other, [])
      else if type_is_integer sx expected_type && type_is_integer sx actual_type then
        (true, other, [])
      else if type_is_pointer sx expected_type && type_is_null_pointer actual_type then
        (true, other, [])
      else if expected_type = actual_type then
        (true, other, [])
      else (false, other, [.wrong_init])

/-- Element-wise checking of an initializer list against the list of expected
member or element types; mirrors the loops of `check_assignment_operands`,
stopping at the first rejected element. -/
def check_operand_list (sx : SynTab) :
    List ItemT → List BExpr → Bool × List BExpr × List Err
  | _, [] => (true, [], [])
  | [], e :: rest => (true, e :: rest, [])
  | t :: ts, e :: rest =>
    match check_assignment_operands sx t e with
    | (true, e2, errs) =>
      match check_operand_list sx ts rest with
      | (ok, rest2, errs2) => (ok, e2 :: rest2, errs ++ errs2)
    | (false, e2, errs) => (false, e2 :: rest, errs)

end

/-- Binary expression builder (`build_binary_expression` in `builder.c`).
Returns the fold result (node plus operand-removal flags) and the emitted
diagnostics. -/
def build_binary_expression (sx : SynTab) (lhs rhs : BExpr) (op_kind : BinOp)
    (op_loc : Loc) : FoldResult × List Err :=
  if node_is_correct lhs = false || node_is_correct rhs = false then
    (⟨.broken, false, false⟩, [])
  else
    let left_type := expression_get_type lhs
    let right_type := expression_get_type rhs
    if operation_is_assignment op_kind && expression_is_lvalue lhs = false then
      (⟨.broken, false, false⟩, [.unassignable_expression])
    else
      match
        (if operation_is_assignment op_kind then
          check_assignment_operands sx left_type rhs
        else (true, rhs, [])) with
      | (false, _, errs) => (⟨.broken, false, false⟩, errs)
      | (true, rhs2, errs0) =>
        let loc : Loc := ⟨(node_get_location lhs).b, (node_get_location rhs2).e⟩
        match op_kind with
        | .remB | .shlB | .shrB | .andB | .xorB | .orB =>
          if type_is_integer sx left_type = false
              || type_is_integer sx right_type = false then
            (⟨.broken, false, false⟩, errs0 ++ [.typecheck_binary_expr])
          else
            (fold_binary_expression sx TYPE_INTEGER lhs rhs2 op_kind loc, errs0)
        | .mulB | .divB | .addB | .subB =>
          if type_is_arithmetic sx left_type = false
              || type_is_arithmetic sx right_type = false then
            (⟨.broken, false, false⟩, errs0 ++ [.typecheck_binary_expr])
          else
            match usual_arithmetic_conversions lhs rhs2 with
            | (ty, lhs2, rhs3) =>
              (fold_binary_expression sx ty lhs2 rhs3 op_kind loc, errs0)
        | .ltB | .gtB | .leB | .geB =>
          if type_is_arithmetic sx left_type = false
              || type_is_arithmetic sx right_type = false then
            (⟨.broken, false, false⟩, errs0 ++ [.typecheck_binary_expr])
          else
            match usual_arithmetic_conversions lhs rhs2 with
            | (_, lhs2, rhs3) =>
              (fold_binary_expression sx TYPE_BOOLEAN lhs2 rhs3 op_kind loc, errs0)
        | .eqB | .neB =>
          let warns :=
            if type_is_floating left_type || type_is_floating right_type then
              [Err.variable_deviation]
            else []
          if type_is_arithmetic sx left_type && type_is_arithmetic sx right_type then
            match usual_arithmetic_conversions lhs rhs2 with
            | (_, lhs2, rhs3) =>
              (fold_binary_expression sx TYPE_BOOLEAN lhs2 rhs3 op_kind loc,
                errs0 ++ warns)
          else if (type_is_pointer sx left_type && type_is_null_pointer right_type)
              || (type_is_null_pointer left_type && type_is_pointer sx right_type)
              || left_type = right_type then
            (fold_binary_expression sx TYPE_BOOLEAN lhs rhs2 op_kind loc,
              errs0 ++ warns)
          else
            (⟨.broken, false, false⟩, errs0 ++ warns ++ [.typecheck_binary_expr])
        | .logAnd | .logOr =>
          if type_is_scalar sx left_type = false
              || type_is_scalar sx right_type = false then
            (⟨.broken, false, false⟩, errs0 ++ [.typecheck_binary_expr])
          else
            (fold_binary_expression sx TYPE_BOOLEAN lhs rhs2 op_kind loc, errs0)
        | .assignB =>
          (⟨expression_assignment left_type lhs rhs2 op_kind loc, false, false⟩, errs0)
        | .remAssign | .shlAssign | .shrAssign | .andAssign | .xorAssign
        | .orAssign =>
          if type_is_integer sx left_type = false
              || type_is_integer sx right_type = false then
            (⟨.broken, false, false⟩, errs0 ++ [.typecheck_binary_expr])
          else
            (⟨expression_assignment left_type lhs rhs2 op_kind loc, false, false⟩, errs0)
        | .mulAssign | .divAssign | .addAssign | .subAssign =>
          if type_is_arithmetic sx left_type = false
              || type_is_arithmetic sx right_type = false then
            (⟨.broken, false, false⟩, errs0 ++ [.typecheck_binary_expr])
          else
            (⟨expression_assignment left_type lhs rhs2 op_kind loc, false, false⟩, errs0)
        | .commaB =>
          (⟨expression_binary right_type lhs rhs2 op_kind loc, false, false⟩, errs0)

/-!
The printf builder.  Format strings are scanned code point by code point
(the C iterates with `utf8_symbol_size` and `utf8_convert`; the model works
directly on the decoded code-point list).
-/

/-- Maximum number of printf placeholders (`MAX_PRINTF_ARGS` in `builder.c`). -/
def MAX_PRINTF_ARGS : Nat := 20

/-- Code point of the percent sign. -/
def CP_PERCENT : Nat := 37

/-- Decoded specifier code points accepted by `evaluate_args`: `i`, `c`,
`f`, `s` and their Cyrillic aliases. -/
def CP_I : Nat := 105

/-- Code point of `c`. -/
def CP_C : Nat := 99

/-- Code point of `f`. -/
def CP_F : Nat := 102

/-- Code point of `s`. -/
def CP_S : Nat := 115

/-- Code point of Cyrillic `ц` (alias of `i`). -/
def CP_TSE : Nat := 1094

/-- Code point of Cyrillic `л` (alias of `c`). -/
def CP_EL : Nat := 1083

/-- Code point of Cyrillic `в` (alias of `f`). -/
def CP_VE : Nat := 1074

/-- Code point of Cyrillic `с` (alias of `s`). -/
def CP_ES : Nat := 1089

/-- Scanning loop of `evaluate_args`: walks the remaining code points,
accumulating the expected argument types.  At a `%` the next code point is
the specifier; a second `%` is a literal percent; the placeholder-count limit
is checked before a (non-`%%`) specifier is recorded, so the
`too_many_printf_args` diagnostic fires when the twenty-first placeholder is
met.  Errors mirror the C returns: the scan stops and the collected types are
discarded (the C returns count `0`). -/
def evaluate_args_scan (sx : SynTab) :
    List Nat → List ItemT → List ItemT × List Err
  | [], acc => (acc, [])
  | c :: rest, acc =>
    if c = CP_PERCENT then
      match rest with
      | [] => ([], [.expected_format_specifier])
      | specifier :: rest2 =>
        if specifier ≠ CP_PERCENT && acc.length = MAX_PRINTF_ARGS then
          ([], [.too_many_printf_args])
        else if specifier = CP_I || specifier = CP_TSE
            || specifier = CP_C || specifier = CP_EL then
          evaluate_args_scan sx rest2 (acc ++ [TYPE_INTEGER])
        else if specifier = CP_F || specifier = CP_VE then
          evaluate_args_scan sx rest2 (acc ++ [TYPE_FLOATING])
        else if specifier = CP_S || specifier = CP_ES then
          evaluate_args_scan sx rest2 (acc ++ [type_string sx])
        else if specifier = CP_PERCENT then
          evaluate_args_scan sx rest2 acc
        else if specifier = 0 then
          ([], [.expected_format_specifier])
        else
          ([], [.unknown_format_specifier specifier])
    else evaluate_args_scan sx rest acc

/-- Format scanning (`evaluate_args` in `builder.c`): reads the string-pool
entry of the format literal and scans it; returns the expected argument types
(empty on a reported error, matching the C count of `0`) and diagnostics. -/
def evaluate_args (sx : SynTab) (format_str : BExpr) : List ItemT × List Err :=
  let str_index := expression_literal_get_string format_str
  evaluate_args_scan sx (string_get sx str_index) []

/-- Per-argument checking loop of `build_printf_expression`: each value
argument is checked against its specifier type with
`check_assignment_operands`; the first rejection aborts. -/
def printf_check_args (sx : SynTab) :
    List ItemT → List BExpr → Bool × List BExpr × List Err
  | _, [] => (true, [], [])
  | [], e :: rest => (true, e :: rest, [])
  | t :: ts, e :: rest =>
    match check_assignment_operands sx t e with
    | (true, e2, errs) =>
      match printf_check_args sx ts rest with
      | (ok, rest2, errs2) => (ok, e2 :: rest2, errs ++ errs2)
    | (false, _, errs) => (false, e :: rest, errs)

/-- The printf call builder (`build_printf_expression` in `builder.c`).  The
argument vector includes the format literal at position zero; a call with
twenty or more total arguments is rejected up front with
`too_many_printf_args`, before the format string is scanned. -/
def build_printf_expression (sx : SynTab) (callee : BExpr)
    (args : List BExpr) (r_loc : Loc) : BExpr × List Err :=
  let argc := args.length
  if argc = 0 then (.broken, [.printf_fst_not_string])
  else if MAX_PRINTF_ARGS ≤ argc then (.broken, [.too_many_printf_args])
  else
    match args with
    | [] => (.broken, [.printf_fst_not_string])
    | fst :: value_args =>
      if expression_get_class fst ≠ .literalC
          || type_is_string sx (expression_get_type fst) = false then
        (.broken, [.printf_fst_not_string])
      else
        match evaluate_args sx fst with
        | (format_types, scan_errs) =>
          if format_types.length ≠ argc - 1 then
            (.broken, scan_errs ++ [.wrong_printf_argument_amount])
          else
            match printf_check_args sx format_types value_args with
            | (false, _, errs) => (.broken, scan_errs ++ errs)
            | (true, value_args2, errs) =>
              let loc : Loc := ⟨(node_get_location callee).b, r_loc.e⟩
              (expression_call TYPE_INTEGER callee (fst :: value_args2) loc,
                scan_errs ++ errs)

/-!
IR emitter model (`llvmgen.c`).  Emission is modelled as state passing: each
emitter maps the encoder state `Info` to an updated state and the list of
emitted instructions.  One `Instr` constructor corresponds to one C
`to_code_*` helper call or one inline `uni_printf` instruction group, with
its numeric operands; purely textual detail (type spellings, alignment) is
not modelled.
-/

/-- Answer kinds (`answer_t`). -/
inductive AnswerKind where
  | areg | aconst | alogic | amem | astr | anull
deriving DecidableEq, Repr

/-- Requested variable locations (`location_t`). -/
inductive VarLocation where
  | lreg | lmem | lfree
deriving DecidableEq, Repr

/-- Emitted IR instructions (abstracted over text). -/
inductive Instr where
  | stackSave (slot : Int)
  | stackRestore (slot : Int)
  | labelI (l : Int)
  | br (l : Int)
  | condBr (reg : Nat) (ltrue lfalse : Int)
  | opRegReg (res : Nat) (op : BinOp) (fst snd : Nat)
  | opRegConstI (res : Nat) (op : BinOp) (fst : Nat) (snd : Int)
  | opRegConstD (res : Nat) (op : BinOp) (fst : Nat) (snd : Rat)
  | opConstRegI (res : Nat) (op : BinOp) (fst : Int) (snd : Nat)
  | opConstRegD (res : Nat) (op : BinOp) (fst : Rat) (snd : Nat)
  | opRegNull (res : Nat) (op : BinOp) (fst : Nat)
  | opNullReg (res : Nat) (op : BinOp) (snd : Nat)
  | loadI (res : Nat) (src : Nat) (isArr isLocal : Bool)
  | storeReg (reg : Nat) (id : Nat) (isArr isPtr isLocal : Bool)
  | storeConstI (v : Int) (id : Nat) (isArr isLocal : Bool)
  | storeConstD (v : Rat) (id : Nat) (isArr isLocal : Bool)
  | storeNull (id : Nat)
  | zext (res src : Nat)
  | sitofp (res src : Nat)
  | slice (res : Nat) (id : Nat) (cur : Nat) (prev : Int)
      (isLocal : Bool) (idxIsReg : Bool) (idxReg : Nat) (idxConst : Int)
  | callI (assignsReg : Bool) (res : Nat) (funcId : Nat)
  | memberGep (res : Nat) (base : Nat) (place : Int)
  | phi (res : Nat)
  | absCall (res src : Nat) (isInt : Bool)
  | retVoid
  | retInt (v : Int)
  | retDouble (v : Rat)
  | retReg (r : Nat)
  | allocaVar (id : Nat)
  | globalVarConstI (id : Nat) (v : Int)
  | globalVarConstD (id : Nat) (v : Rat)
  | globalVarCommon (id : Nat)
  | allocaArrayStatic (id : Nat)
  | globalArrayStatic (id : Nat)
  | allocaArrayDynamic (id : Nat)
  | globalArrayInit (id : Nat)
  | globalArrayElemI (v : Int)
  | globalArrayElemD (v : Rat)
  | mulNuw (res : Nat) (fst snd : Int)
  | funcHeader (id : Nat) (main : Bool)
  | paramAlloca (id : Nat)
  | paramStore (idx : Nat) (id : Nat)
  | closeBrace
deriving DecidableEq, Repr

/-- Encoder state (`information` in `llvmgen.c`). -/
structure Info where
  sx : SynTab
  registerNum : Nat
  labelNum : Int
  blockNum : Int
  requestReg : Nat
  variableLocation : VarLocation
  answerReg : Nat
  answerConst : Int
  answerString : Nat
  answerConstDouble : Rat
  answerKind : AnswerKind
  labelTrue : Int
  labelFalse : Int
  labelBreak : Int
  labelContinue : Int
  labelTernaryEnd : Int
  arrays : List (Nat × Bool × List Int)
  wasStackFunctions : Bool
  wasDynamic : Bool
  isMain : Bool
deriving DecidableEq, Repr

/-- Initial encoder state (`encode_to_llvm`): counters start at one. -/
def initInfo (sx : SynTab) : Info where
  sx := sx
  registerNum := 1
  labelNum := 1
  blockNum := 1
  requestReg := 0
  variableLocation := .lreg
  answerReg := 0
  answerConst := 0
  answerString := 0
  answerConstDouble := 0
  answerKind := .aconst
  labelTrue := 0
  labelFalse := 0
  labelBreak := 0
  labelContinue := 0
  labelTernaryEnd := 0
  arrays := []
  wasStackFunctions := false
  wasDynamic := false
  isMain := false

/-- Array-descriptor hash lookup (`hash_get`-style, keyed by identifier). -/
def hashEntry (info : Info) (id : Nat) : Option (Bool × List Int) :=
  (info.arrays.find? fun e => e.1 = id).map Prod.snd

/-- Amount of slots of an entry (`hash_get_amount`): static flag plus
dimension slots, `0` for a missing key. -/
def hash_get_amount (info : Info) (id : Nat) : Nat :=
  match hashEntry info id with
  | some (_, dims) => 1 + dims.length
  | none => 0

/-- Static flag of an entry. -/
def hash_get_is_static (info : Info) (id : Nat) : Bool :=
  match hashEntry info id with
  | some (s, _) => s
  | none => false

/-- Dimension slot `j` of an entry (`hash_get` with `1 ≤ j`). -/
def hash_get_dim (info : Info) (id : Nat) (j : Nat) : Int :=
  match hashEntry info id with
  | some (_, dims) => (dims.get? (j - 1)).getD 0
  | none => 0

/-- Insert a fresh entry with the given number of dimension slots
(`hash_add` followed by setting the static flag). -/
def hash_add (info : Info) (id : Nat) (dimensions : Nat) (isStatic : Bool) : Info :=
  { info with arrays := (id, isStatic, List.replicate dimensions (0 : Int)) :: info.arrays }

/-- Set dimension slot `j` of an entry. -/
def hash_set_dim (info : Info) (id : Nat) (j : Nat) (v : Int) : Info :=
  { info with
    arrays := info.arrays.map fun e =>
      if e.1 = id then (e.1, e.2.1, e.2.2.set (j - 1) v) else e }

/-- Set the static flag of an entry. -/
def hash_set_static (info : Info) (id : Nat) (s : Bool) : Info :=
  { info with
    arrays := info.arrays.map fun e =>
      if e.1 = id then (e.1, s, e.2.2) else e }

/-- Stack-save emission (`to_code_stack_save`): one slot alloca, the
`llvm.stacksave` call and the store, consuming one register. -/
def to_code_stack_save (info : Info) (index : Int) : Info × List Instr :=
  ({ info with registerNum := info.registerNum + 1, wasStackFunctions := true },
    [.stackSave index])

/-- Stack-restore emission (`to_code_stack_load`): the slot load and the
`llvm.stackrestore` call, consuming one register. -/
def to_code_stack_load (info : Info) (index : Int) : Info × List Instr :=
  ({ info with registerNum := info.registerNum + 1, wasStackFunctions := true },
    [.stackRestore index])

/-- Zero extension of a logic answer (`to_code_try_zext_to`). -/
def to_code_try_zext_to (info : Info) : Info × List Instr :=
  if info.answerKind ≠ .alogic then (info, [])
  else
    ({ info with
        answerKind := .areg
        answerReg := info.registerNum
        registerNum := info.registerNum + 1 },
      [.zext info.registerNum info.answerReg])

/-- Slice emission (`to_code_slice`): one `getelementptr` through the array
descriptor, indexed by the current answer (register or constant), consuming
one register. -/
def to_code_slice (info : Info) (id : Nat) (cur : Nat) (prev : Int)
    (isLocal : Bool) : Info × List Instr :=
  ({ info with registerNum := info.registerNum + 1 },
    [.slice info.registerNum id cur prev isLocal
      (info.answerKind = .areg) info.answerReg info.answerConst])

/-- Conditional branch idiom (`check_type_and_branch`): constants branch
unconditionally, plain registers are compared against zero first (the C
switch falls through into the logic case), logic answers branch directly. -/
def check_type_and_branch (info : Info) : Info × List Instr :=
  match info.answerKind with
  | .aconst =>
    (info, [.br (if info.answerConst ≠ 0 then info.labelTrue else info.labelFalse)])
  | .areg =>
    let info2 := { info with
      answerReg := info.registerNum,
      registerNum := info.registerNum + 1 }
    (info2, [.opRegConstI info.registerNum .neB info.answerReg 0,
      .condBr info2.answerReg info2.labelTrue info2.labelFalse])
  | .alogic =>
    (info, [.condBr info.answerReg info.labelTrue info.labelFalse])
  | _ => (info, [])

/-- Emitter-side literal payloads.  String literals carry their pool index
and, for array initialisation by string, the pooled code points. -/
inductive ELit where
  | intV (v : Int)
  | boolV (b : Bool)
  | floatV (v : Rat)
  | strV (index : Nat) (chars : List Int)
  | nullV
deriving DecidableEq, Repr

/-- Emitter-side expression nodes (the type-annotated AST the emitter
walks).  Each node carries its stamped type id.  Member nodes carry their
base identifier directly, as the C reads the base id without emitting the
base expression. -/
inductive EExpr where
  | castE (target source : ItemT) (operand : EExpr)
  | identE (ty : ItemT) (id : Nat)
  | litE (ty : ItemT) (val : ELit)
  | subscriptE (ty : ItemT) (base index : EExpr)
  | callE (ty calleeTy : ItemT) (funcId : Nat) (args : List EExpr)
  | memberE (ty baseTy : ItemT) (baseId : Nat) (place : Int)
  | unaryE (ty : ItemT) (op : UnOp) (operand : EExpr)
  | binaryE (ty : ItemT) (op : BinOp) (lhs rhs : EExpr)
  | ternaryE (ty : ItemT) (cond lhs rhs : EExpr)
  | initListE (ty : ItemT) (subs : List EExpr)
deriving Repr

/-- Class of an emitter-side node. -/
def eexpr_get_class : EExpr → ExprClass
  | .castE _ _ _ => .castC
  | .identE _ _ => .identifierC
  | .litE _ _ => .literalC
  | .subscriptE _ _ _ => .subscriptC
  | .callE _ _ _ _ => .callC
  | .memberE _ _ _ _ => .memberC
  | .unaryE _ _ _ => .unaryC
  | .binaryE _ _ _ _ => .binaryC
  | .ternaryE _ _ _ _ => .ternaryC
  | .initListE _ _ => .initializerC

/-- Type of an emitter-side node. -/
def eexpr_get_type : EExpr → ItemT
  | .castE target _ _ => target
  | .identE ty _ => ty
  | .litE ty _ => ty
  | .subscriptE ty _ _ => ty
  | .callE ty _ _ _ => ty
  | .memberE ty _ _ _ => ty
  | .unaryE ty _ _ => ty
  | .binaryE ty _ _ _ => ty
  | .ternaryE ty _ _ _ => ty
  | .initListE ty _ => ty

/-- Identifier id of a node (`expression_identifier_get_id`); the C reads
the argument slot whatever the class is, meaningful only for identifiers,
modelled as `0` elsewhere. -/
def eexpr_ident_get_id : EExpr → Nat
  | .identE _ id => id
  | _ => 0

/-- Integer payload of an emitter-side literal
(`expression_literal_get_integer`; layout caveats as on the builder side). -/
def elit_get_integer : ELit → Int
  | .intV v => v
  | .boolV b => if b then 1 else 0
  | .strV index _ => (index : Int)
  | .floatV _ => 0
  | .nullV => 0

/-- Floating payload of an emitter-side literal. -/
def elit_get_floating : ELit → Rat
  | .floatV v => v
  | _ => 0

/-- String pool index of an emitter-side literal. -/
def elit_get_string : ELit → Nat
  | .strV index _ => index
  | _ => 0

/-- Innermost base of a subscript chain (the loop at the head of
`emit_subscript_expression`). -/
def subscript_base_ident : EExpr → EExpr
  | .subscriptE _ base _ => subscript_base_ident base
  | e => e

/-- Leaf element type of a (possibly nested) array type (`array_get_type` in
`llvmgen.c`), with the table depth as recursion fuel. -/
def array_get_type_fuel (sx : SynTab) : Nat → ItemT → ItemT
  | 0, t => t
  | fuel + 1, t =>
    if type_is_array sx t then
      array_get_type_fuel sx fuel (type_array_get_element_type sx t)
    else t

/-- Leaf element type of an array type. -/
def array_get_type (sx : SynTab) (t : ItemT) : ItemT :=
  array_get_type_fuel sx (sx.types.length + 1) t

/-- Dimension count of an array type (`array_get_dim` in `llvmgen.c`). -/
def array_get_dim_fuel (sx : SynTab) : Nat → ItemT → Nat
  | 0, _ => 0
  | fuel + 1, t =>
    if type_is_array sx t then
      1 + array_get_dim_fuel sx fuel (type_array_get_element_type sx t)
    else 0

/-- Dimension count of an array type. -/
def array_get_dim (sx : SynTab) (t : ItemT) : Nat :=
  array_get_dim_fuel sx (sx.types.length + 1) t

/-- Emitter-side usual arithmetic conversions (the static
`usual_arithmetic_conversions` of `llvmgen.c`, including its duplicated
left-operand character test). -/
def info_usual_arithmetic_conversions (sx : SynTab) (left_type right_type : ItemT) : ItemT :=
  if type_is_integer sx left_type && type_is_integer sx right_type then
    if type_get_class sx left_type = .characterC
        && type_get_class sx left_type = .characterC then TYPE_CHARACTER
    else TYPE_INTEGER
  else TYPE_FLOATING

/-- Maximum argument count of an emitted call (`MAX_FUNCTION_ARGS` in
`llvmgen.c`). -/
def MAX_FUNCTION_ARGS : Nat := 128

mutual

/-- Expression emission (`emit_expression` of `llvmgen.c`, with the
per-class emitters inlined as the corresponding match arms; each arm is
annotated with the C function it mirrors). -/
def emit_expression : EExpr → Info → Info × List Instr
  -- emit_cast_expression: emit the operand, then one sitofp
  | .castE _ _ operand, info =>
    let (i1, l1) := emit_expression operand info
    ({ i1 with answerReg := i1.registerNum, registerNum := i1.registerNum + 1 },
      l1 ++ [.sitofp i1.registerNum i1.answerReg])
  -- emit_identifier_expression
  | .identE ty0 id, info =>
    let isLocal := ident_is_local info.sx id
    let is_addr_to_val := info.variableLocation = .lmem
    let (i1, l1, ty) :=
      if is_addr_to_val then
        ({ info with registerNum := info.registerNum + 1, variableLocation := .lreg },
          [Instr.loadI info.registerNum id false isLocal],
          type_pointer_get_element_type info.sx ty0)
      else (info, ([] : List Instr), ty0)
    if type_is_array i1.sx ty then
      let i2 := { i1 with answerConst := 0 }
      let (i3, l3) := to_code_slice i2 id 0 0 isLocal
      ({ i3 with answerReg := i3.registerNum, answerKind := .areg }, l1 ++ l3)
    else
      ({ i1 with
          registerNum := i1.registerNum + 1
          answerReg := i1.registerNum
          answerKind := .areg },
        l1 ++ [Instr.loadI i1.registerNum
          (if is_addr_to_val then i1.registerNum - 1 else id)
          is_addr_to_val (is_addr_to_val || isLocal)])
  -- emit_literal_expression
  | .litE ty v, info =>
    if type_is_string info.sx ty then
      ({ info with answerString := elit_get_string v, answerKind := .astr }, [])
    else if type_is_integer info.sx ty then
      if info.variableLocation = .lmem then
        ({ info with answerKind := .areg },
          [.storeConstI (elit_get_integer v) info.requestReg false
            (ident_is_local info.sx info.requestReg)])
      else
        ({ info with answerKind := .aconst, answerConst := elit_get_integer v }, [])
    else if type_is_floating ty then
      if info.variableLocation = .lmem then
        ({ info with answerKind := .areg },
          [.storeConstD (elit_get_floating v) info.requestReg false
            (ident_is_local info.sx info.requestReg)])
      else
        ({ info with answerKind := .aconst, answerConstDouble := elit_get_floating v }, [])
    else
      ({ info with answerKind := .anull }, [])
  -- emit_subscript_expression
  | .subscriptE ty base index, info =>
    let id := eexpr_ident_get_id (subscript_base_ident (.subscriptE ty base index))
    let location := info.variableLocation
    let (i1, l1) := emit_one_dimension_subscript (.subscriptE ty base index) id 0 info
    let (i2, l2) :=
      if location ≠ .lmem then
        ({ i1 with registerNum := i1.registerNum + 1 },
          [Instr.loadI i1.registerNum (i1.registerNum - 1) true true])
      else (i1, ([] : List Instr))
    ({ i2 with answerReg := i2.registerNum - 1, answerKind := .areg }, l1 ++ l2)
  -- emit_call_expression
  | .callE ty _ funcId args, info =>
    if MAX_FUNCTION_ARGS < args.length then (info, [])
    else
      let (i1, l1) := emit_arg_list args info
      if type_is_void ty = false then
        ({ i1 with
            answerKind := .areg
            answerReg := i1.registerNum
            registerNum := i1.registerNum + 1 },
          l1 ++ [.callI true i1.registerNum funcId])
      else (i1, l1 ++ [.callI false 0 funcId])
  -- emit_member_expression (the base is read, not emitted)
  | .memberE _ baseTy baseId place, info =>
    let is_pointer := type_is_pointer info.sx baseTy
    let (i1, l1) :=
      if is_pointer then
        ({ info with registerNum := info.registerNum + 1 },
          [Instr.loadI info.registerNum baseId false (ident_is_local info.sx baseId)])
      else (info, ([] : List Instr))
    let gep := Instr.memberGep i1.registerNum
      (if is_pointer then i1.registerNum - 1 else baseId) place
    if i1.variableLocation ≠ .lmem then
      let i2 := { i1 with registerNum := i1.registerNum + 1 }
      ({ i2 with
          answerKind := .areg
          answerReg := i2.registerNum
          registerNum := i2.registerNum + 1 },
        l1 ++ [gep, Instr.loadI i2.registerNum (i2.registerNum - 1) true true])
    else
      ({ i1 with answerReg := i1.registerNum, registerNum := i1.registerNum + 1 },
        l1 ++ [gep])
  -- emit_unary_expression
  | .unaryE ty op operand, info =>
    match op with
    | .postinc | .postdec | .preinc | .predec =>
      -- emit_inc_dec_expression
      let is_array_or_pointer :=
        eexpr_get_class operand = .subscriptC || eexpr_get_class operand = .unaryC
      let (i1, l1, id) :=
        if is_array_or_pointer = false then
          (info, ([] : List Instr), eexpr_ident_get_id operand)
        else
          let (ia, la) := emit_expression operand { info with variableLocation := .lmem }
          (ia, la, ia.answerReg)
      let i2 := { i1 with
          answerKind := .areg
          answerReg := i1.registerNum
          registerNum := i1.registerNum + 1 }
      let i3 := if op = .preinc || op = .predec
        then { i2 with answerReg := i2.registerNum } else i2
      ({ i3 with registerNum := i3.registerNum + 1 },
        l1 ++ [Instr.loadI i1.registerNum id is_array_or_pointer (ident_is_local i1.sx id)]
          ++ (if type_is_integer i3.sx ty then
              [Instr.opRegConstI i3.registerNum
                (if op = .preinc || op = .postinc then .addB else .subB)
                (i3.registerNum - 1) 1]
            else
              [Instr.opRegConstD i3.registerNum
                (if op = .preinc || op = .postinc then .addB else .subB)
                (i3.registerNum - 1) 1])
          ++ [Instr.storeReg i3.registerNum id is_array_or_pointer false
              (ident_is_local i3.sx id)])
    | .minusU | .notU =>
      let (i1, l1) := emit_expression operand { info with variableLocation := .lreg }
      let (i2, l2) := to_code_try_zext_to i1
      ({ i2 with
          answerKind := .areg
          answerReg := i2.registerNum
          registerNum := i2.registerNum + 1 },
        l1 ++ l2 ++
          (if op = .minusU && type_is_integer i2.sx ty then
            [Instr.opConstRegI i2.registerNum .subB 0 i2.answerReg]
          else if op = .notU then
            [Instr.opRegConstI i2.registerNum .xorB i2.answerReg (-1)]
          else if op = .minusU && type_is_floating ty then
            [Instr.opConstRegD i2.registerNum .subB 0 i2.answerReg]
          else []))
    | .lognot =>
      -- swaps the true and false labels and does not restore them
      emit_expression operand
        { info with labelTrue := info.labelFalse, labelFalse := info.labelTrue }
    | .address =>
      ({ info with answerReg := eexpr_ident_get_id operand, answerKind := .amem }, [])
    | .indirection =>
      emit_expression operand
        { info with variableLocation :=
            if info.variableLocation = .lmem then .lreg else .lmem }
    | .absU =>
      let (i1, l1) := emit_expression operand { info with variableLocation := .lfree }
      ({ i1 with
          answerKind := .areg
          answerReg := i1.registerNum
          registerNum := i1.registerNum + 1 },
        l1 ++ [.absCall i1.registerNum i1.answerReg (type_is_integer i1.sx ty)])
    | .upb => (info, [])
  -- emit_binary_expression
  | .binaryE ty op lhs rhs, info =>
    if operation_is_assignment op then
      -- emit_assignment_expression
      let is_array := eexpr_get_class lhs = .subscriptC
      let (i1, l1, id) :=
        if is_array = false then
          (info, ([] : List Instr), eexpr_ident_get_id lhs)
        else
          let (ia, la) := emit_expression lhs { info with variableLocation := .lmem }
          (ia, la, ia.answerReg)
      let (i3, l3) := emit_expression rhs { i1 with variableLocation := .lfree }
      let (i4, l4) := to_code_try_zext_to i3
      let (i5, l5, result) :=
        if op ≠ .assignB then
          let ia := { i4 with registerNum := i4.registerNum + 1 }
          let opl :=
            if ia.answerKind = .areg then
              [Instr.opRegReg ia.registerNum op (ia.registerNum - 1) ia.answerReg]
            else if type_is_integer ia.sx ty then
              [Instr.opRegConstI ia.registerNum op (ia.registerNum - 1) ia.answerConst]
            else if type_is_floating ty then
              [Instr.opRegConstD ia.registerNum op (ia.registerNum - 1) ia.answerConstDouble]
            else []
          ({ ia with registerNum := ia.registerNum + 1, answerKind := .areg },
            [Instr.loadI i4.registerNum id is_array (ident_is_local i4.sx id)] ++ opl,
            ia.registerNum)
        else (i4, ([] : List Instr), i4.answerReg)
      if i5.answerKind = .areg || i5.answerKind = .amem then
        ({ i5 with answerKind := .areg, answerReg := result },
          l1 ++ l3 ++ l4 ++ l5 ++
            [.storeReg result id is_array (i5.answerKind = .amem)
              (ident_is_local i5.sx id)])
      else if type_is_integer i5.sx ty then
        (i5, l1 ++ l3 ++ l4 ++ l5 ++
          [.storeConstI i5.answerConst id is_array (ident_is_local i5.sx id)])
      else if type_is_floating ty then
        (i5, l1 ++ l3 ++ l4 ++ l5 ++
          [.storeConstD i5.answerConstDouble id is_array (ident_is_local i5.sx id)])
      else
        ({ i5 with answerKind := .anull }, l1 ++ l3 ++ l4 ++ l5 ++ [.storeNull id])
    else
      if op = .mulB || op = .divB || op = .remB || op = .addB || op = .subB
          || op = .shlB || op = .shrB || op = .andB || op = .xorB || op = .orB then
        emit_integral_expression (.binaryE ty op lhs rhs) .areg info
      else if op = .ltB || op = .gtB || op = .leB || op = .geB
          || op = .eqB || op = .neB then
        emit_integral_expression (.binaryE ty op lhs rhs) .alogic info
      else if op = .logOr || op = .logAnd then
        -- short-circuit lowering through a fresh next label
        let label_next := info.labelNum
        let old_true := info.labelTrue
        let old_false := info.labelFalse
        let i0 := { info with labelNum := info.labelNum + 1 }
        let i1 := if op = .logOr then { i0 with labelFalse := label_next }
          else { i0 with labelTrue := label_next }
        let (i2, l2) := emit_expression lhs i1
        let brl :=
          if i2.answerKind = .alogic then
            [Instr.condBr i2.answerReg i2.labelTrue i2.labelFalse]
          else []
        let (i4, l4) :=
          emit_expression rhs { i2 with labelTrue := old_true, labelFalse := old_false }
        (i4, l2 ++ brl ++ [.labelI label_next] ++ l4)
      else (info, [])
  -- emit_ternary_expression (the phi payload is textual and kept coarse)
  | .ternaryE _ cond lhs rhs, info =>
    let old_true := info.labelTrue
    let old_false := info.labelFalse
    let label_then := info.labelNum
    let label_else := info.labelNum + 1
    let label_end := info.labelNum + 2
    let (i1, l1) := emit_expression cond
      { info with
          labelNum := info.labelNum + 3
          labelTrue := label_then
          labelFalse := label_else
          variableLocation := .lfree }
    let (i2, l2) := check_type_and_branch i1
    let (i4, l4) := emit_expression lhs { i2 with variableLocation := .lfree }
    let (i6, l6) := emit_expression rhs { i4 with variableLocation := .lfree }
    ({ i6 with
        answerKind := .areg
        answerReg := i6.registerNum
        registerNum := i6.registerNum + 1
        labelTrue := old_true
        labelFalse := old_false
        labelTernaryEnd := label_end },
      l1 ++ l2 ++ [.labelI label_then] ++ l4 ++ [.br label_end, .labelI label_else]
        ++ l6 ++ [.br label_end, .labelI label_end, .phi i6.registerNum])
  -- initializer-class nodes fall into the default arm of emit_expression
  | .initListE _ _, info => (info, [])
termination_by e _ => (sizeOf e, 1)

/-- Non-assignment arithmetic and comparison lowering
(`emit_integral_expression`). -/
def emit_integral_expression (nd : EExpr) (kind : AnswerKind)
    (info : Info) : Info × List Instr :=
  match nd with
  | .binaryE ty op lhs rhs =>
  let answer_type := eexpr_get_type lhs
  let (i1, l1) := emit_expression lhs { info with variableLocation := .lfree }
  let operation_type :=
    if kind = .alogic then info_usual_arithmetic_conversions i1.sx answer_type ty
    else ty
  let (i2, l2) := to_code_try_zext_to i1
  let left_kind := i2.answerKind
  let left_reg := i2.answerReg
  let left_const := i2.answerConst
  let left_const_double := i2.answerConstDouble
  let (i4, l4) := emit_expression rhs { i2 with variableLocation := .lfree }
  let (i5, l5) := to_code_try_zext_to i4
  let right_kind := i5.answerKind
  let opl :=
    if left_kind = .areg && right_kind = .areg then
      [Instr.opRegReg i5.registerNum op left_reg i5.answerReg]
    else if left_kind = .areg && right_kind = .aconst
        && type_is_integer i5.sx operation_type then
      [Instr.opRegConstI i5.registerNum op left_reg i5.answerConst]
    else if left_kind = .areg && right_kind = .aconst then
      [Instr.opRegConstD i5.registerNum op left_reg i5.answerConstDouble]
    else if left_kind = .aconst && right_kind = .areg
        && type_is_integer i5.sx operation_type then
      [Instr.opConstRegI i5.registerNum op left_const i5.answerReg]
    else if left_kind = .aconst && right_kind = .areg then
      [Instr.opConstRegD i5.registerNum op left_const_double i5.answerReg]
    else if left_kind = .areg && right_kind = .anull then
      [Instr.opRegNull i5.registerNum op left_reg]
    else if left_kind = .anull && right_kind = .areg then
      [Instr.opNullReg i5.registerNum op i5.answerReg]
    else []
  ({ i5 with
      answerReg := i5.registerNum
      registerNum := i5.registerNum + 1
      answerKind := kind },
    l1 ++ l2 ++ l4 ++ l5 ++ opl)
  | _ => (info, [])
termination_by (sizeOf nd, 0)

/-- One dimension of a subscript chain (`emit_one_dimension_subscript`):
recurse into the base when not yet at the innermost dimension, then emit the
index expression and one slice. -/
def emit_one_dimension_subscript (nd : EExpr) (id : Nat) (cur : Nat)
    (info : Info) : Info × List Instr :=
  match nd with
  | .subscriptE _ base index =>
    let dimensions := hash_get_amount info id - 1
    let is_local := ident_is_local info.sx id
    let (i1, l1) :=
      if cur ≠ dimensions - 1 then
        emit_one_dimension_subscript base id (cur + 1) info
      else (info, ([] : List Instr))
    let (i3, l3) := emit_expression index { i1 with variableLocation := .lfree }
    let (i4, l4) := to_code_slice i3 id cur ((i3.registerNum : Int) - 1) is_local
    (i4, l1 ++ l3 ++ l4)
  | _ => (info, [])
termination_by (sizeOf nd, 0)

/-- Argument loop of `emit_call_expression`: each argument is emitted in
free position and logic answers are zero-extended. -/
def emit_arg_list : List EExpr → Info → Info × List Instr
  | [], info => (info, [])
  | a :: rest, info =>
    let (i1, l1) := emit_expression a { info with variableLocation := .lfree }
    let (i2, l2) := to_code_try_zext_to i1
    let (i3, l3) := emit_arg_list rest i2
    (i3, l1 ++ l2 ++ l3)
termination_by l _ => (sizeOf l, 0)

end

/-!
Declaration lowering (`emit_variable_declaration`, `emit_initialization`,
`emit_one_dimension_initialization`).  The `system_error` reports for
unsupported array shapes print a message and continue in the C; they carry
no state and are not modelled.
-/

/-- Variable declarator as the emitter sees it: identifier, declared type,
dimension-bound expressions, optional initializer. -/
structure VarDecl where
  id : Nat
  ty : ItemT
  dims : List EExpr
  ini : Option EExpr
deriving Repr

/-- Size of an initializer level (`expression_initializer_get_size`). -/
def init_size : EExpr → Nat
  | .initListE _ subs => subs.length
  | _ => 0

/-- First subexpression of an initializer level. -/
def init_first_sub : EExpr → EExpr
  | .initListE _ (sub :: _) => sub
  | e => e

/-- Record the per-dimension bounds of a nested initializer into the array
descriptor (the dimension loop at the head of `emit_initialization`). -/
def record_init_bounds (id : Nat) : Nat → Nat → EExpr → Info → Info
  | 0, _, _, info => info
  | remaining + 1, slot, nd, info =>
    record_init_bounds id remaining (slot + 1) (init_first_sub nd)
      (hash_set_dim info id slot (init_size nd : Int))

/-- Bound-product emission of `to_code_alloc_array_dynamic`: one `mul nuw`
per dimension past the first, each consuming a register. -/
def dyn_product (id : Nat) : Nat → Nat → Int → Info → Info × List Instr
  | _, 0, _, info => (info, [])
  | i, remaining + 1, to_alloc, info =>
    let (i3, l3) := dyn_product id (i + 1) remaining ((info.registerNum : Int))
      { info with registerNum := info.registerNum + 1 }
    (i3, Instr.mulNuw info.registerNum to_alloc (hash_get_dim info id i) :: l3)

/-- Dynamic array allocation (`to_code_alloc_array_dynamic`). -/
def to_code_alloc_array_dynamic (info : Info) (id : Nat) : Info × List Instr :=
  let dim := hash_get_amount info id - 1
  let (i1, l1) := dyn_product id 2 (dim - 1) (hash_get_dim info id 1) info
  (i1, l1 ++ [Instr.allocaArrayDynamic id])

mutual

/-- One dimension of a nested array initialisation
(`emit_one_dimension_initialization`). -/
def emit_one_dimension_initialization (nd : EExpr) (id : Nat)
    (arr_type : ItemT) (cur : Nat) (prev : Int) (is_local : Bool)
    (info : Info) : Info × List Instr :=
  match nd with
  | .initListE _ subs =>
    emit_init_elements subs 0 id arr_type cur prev is_local info
  | _ => (info, [])
termination_by (sizeOf nd, 1)

/-- Element loop of `emit_one_dimension_initialization`: for each element a
constant-indexed slice and either a scalar store (innermost dimension) or a
recursive descent. -/
def emit_init_elements (subs : List EExpr) (i : Nat) (id : Nat)
    (arr_type : ItemT) (cur : Nat) (prev : Int) (is_local : Bool)
    (info : Info) : Info × List Instr :=
  match subs with
  | [] => (info, [])
  | sub :: rest =>
    let ty := array_get_type info.sx arr_type
    let i0 := { info with answerConst := (i : Int), answerKind := .aconst }
    let slice_reg := i0.registerNum
    let (i1, l1) := if is_local then to_code_slice i0 id cur prev is_local
      else (i0, ([] : List Instr))
    let i2 := { i1 with variableLocation := .lfree }
    let (i3, l3) :=
      if cur = 0 then
        let (ia, la) := emit_expression sub i2
        if ia.answerKind = .areg then
          (ia, la ++ [.storeReg ia.answerReg slice_reg true false is_local])
        else if type_is_integer ia.sx ty then
          if is_local then
            (ia, la ++ [.storeConstI ia.answerConst slice_reg true true])
          else (ia, la ++ [.globalArrayElemI ia.answerConst])
        else
          if is_local then
            (ia, la ++ [.storeConstD ia.answerConstDouble slice_reg true true])
          else (ia, la ++ [.globalArrayElemD ia.answerConstDouble])
      else
        emit_one_dimension_initialization sub id arr_type (cur - 1)
          (slice_reg : Int) true i2
    let (i4, l4) := emit_init_elements rest (i + 1) id arr_type cur prev is_local i3
    (i4, l1 ++ l3 ++ l4)
termination_by (sizeOf subs, 0)

end

/-- Character-store loop of the string-literal array initialisation branch
of `emit_initialization`. -/
def emit_string_elements : List Int → Nat → Nat → Info → Info × List Instr
  | [], _, _, info => (info, [])
  | ch :: rest, i, id, info =>
    let i0 := { info with answerConst := (i : Int), answerKind := .aconst }
    let slice_reg := i0.registerNum
    let (i1, l1) := to_code_slice i0 id 0 0 true
    let (i2, l2) := emit_string_elements rest (i + 1) id i1
    (i2, l1 ++ [Instr.storeConstI ch slice_reg true true] ++ l2)

/-- Array initialisation (`emit_initialization`): an initializer list over
an array type records the nested sizes and walks the elements; a string
literal over an array type stores its characters element-wise; anything else
is ignored here (scalar initialisation is handled inline by
`emit_variable_declaration`). -/
def emit_initialization (nd : EExpr) (id : Nat) (arr_type : ItemT)
    (is_local : Bool) (info : Info) : Info × List Instr :=
  if eexpr_get_class nd = .initializerC
      && type_is_array info.sx (eexpr_get_type nd) then
    let dimensions := array_get_dim info.sx arr_type
    let i1 := record_init_bounds id dimensions 1 nd info
    let (i3, l3) := emit_one_dimension_initialization nd id arr_type
      (dimensions - 1) 0 is_local i1
    (i3, (if is_local then [Instr.allocaArrayStatic id]
      else [Instr.globalArrayInit id]) ++ l3)
  else if eexpr_get_class nd = .literalC
      && type_is_array info.sx (eexpr_get_type nd) then
    match nd with
    | .litE _ (.strV _ chars) =>
      let i1 := hash_set_dim info id 1 (chars.length : Int)
      let (i3, l3) := emit_string_elements chars 0 id i1
      (i3, [Instr.allocaArrayStatic id] ++ l3)
    | _ => (info, [])
  else (info, [])

/-- Bound loop of the array branch of `emit_variable_declaration`: each
bound expression is emitted; without an initializer a constant bound is
recorded, and a non-constant bound is recorded as its register and marks the
descriptor dynamic. -/
def emit_declaration_dims (id : Nat) (has_init : Bool) :
    List EExpr → Nat → Info → Info × List Instr
  | [], _, info => (info, [])
  | e :: rest, j, info =>
    let (i1, l1) := emit_expression e { info with variableLocation := .lfree }
    let i2 :=
      if has_init = false then
        if i1.answerKind = .aconst then hash_set_dim i1 id j i1.answerConst
        else hash_set_static (hash_set_dim i1 id j (i1.answerReg : Int)) id false
      else i1
    let (i3, l3) := emit_declaration_dims id has_init rest (j + 1) i2
    (i3, l1 ++ l3)

/-- Variable declaration lowering (`emit_variable_declaration`). -/
def emit_variable_declaration (d : VarDecl) (is_local : Bool)
    (info : Info) : Info × List Instr :=
  let id := d.id
  let has_init := d.ini.isSome
  let ty := d.ty
  let (i9, l9) :=
    if type_is_array info.sx ty = false && is_local then
      match d.ini with
      | some ini =>
        let (i1, l1) := emit_expression ini
          { info with variableLocation := .lfree, requestReg := id }
        if i1.answerKind = .aconst then
          if type_is_integer i1.sx ty then
            (i1, Instr.allocaVar id :: l1
              ++ [.storeConstI i1.answerConst i1.requestReg false is_local])
          else
            (i1, Instr.allocaVar id :: l1
              ++ [.storeConstD i1.answerConstDouble i1.requestReg false is_local])
        else if i1.answerKind = .areg then
          (i1, Instr.allocaVar id :: l1
            ++ [.storeReg i1.answerReg id false false is_local])
        else (i1, Instr.allocaVar id :: l1)
      | none => (info, [Instr.allocaVar id])
    else if type_is_array info.sx ty = false then
      match d.ini with
      | some ini =>
        let (i1, l1) := emit_expression ini { info with variableLocation := .lfree }
        if i1.answerKind = .aconst then
          if type_is_integer i1.sx ty then
            (i1, l1 ++ [.globalVarConstI id i1.answerConst])
          else (i1, l1 ++ [.globalVarConstD id i1.answerConstDouble])
        else (i1, l1)
      | none => (info, [Instr.globalVarCommon id])
    else
      let dimensions := array_get_dim info.sx ty
      let i0 := hash_add info id dimensions true
      let (i1, l1) := emit_declaration_dims id has_init d.dims 1 i0
      if hash_get_is_static i1 id && has_init = false then
        (i1, l1 ++ [if is_local then Instr.allocaArrayStatic id
          else Instr.globalArrayStatic id])
      else if has_init = false then
        let (i2, l2) :=
          if i1.wasDynamic = false then to_code_stack_save i1 (-1)
          else (i1, ([] : List Instr))
        let (i3, l3) := to_code_alloc_array_dynamic i2 id
        ({ i3 with wasDynamic := true }, l1 ++ l2 ++ l3)
      else (i1, l1)
  match d.ini with
  | some ini =>
    let (i10, l10) := emit_initialization ini id ty is_local i9
    (i10, l9 ++ l10)
  | none => (i9, l9)

/-- Declaration-statement loop (`emit_declaration_statement` with
`emit_declaration`; only variable declarators occur in statement position). -/
def emit_declaration_list : List VarDecl → Info → Info × List Instr
  | [], info => (info, [])
  | d :: rest, info =>
    let (i1, l1) := emit_variable_declaration d true info
    let (i2, l2) := emit_declaration_list rest i1
    (i2, l1 ++ l2)

/-!
Statement lowering.
-/

/-- Emitter-side statement nodes. -/
inductive EStmt where
  | declStmt (decls : List VarDecl)
  | labeledS (labelId : Nat) (sub : EStmt)
  | caseS (sub : EStmt)
  | defaultS (sub : EStmt)
  | compoundS (stmts : List EStmt)
  | exprStmt (e : EExpr)
  | nullS
  | ifS (cond : EExpr) (thn : EStmt) (els : Option EStmt)
  | switchS (cond : EExpr) (body : EStmt)
  | whileS (cond : EExpr) (body : EStmt)
  | doS (body : EStmt) (cond : EExpr)
  | forS (ini : Option EStmt) (cond : Option EExpr) (incr : Option EExpr) (body : EStmt)
  | gotoS (labelId : Nat)
  | continueS
  | breakS
  | returnS (e : Option EExpr)
deriving Repr

/-- Label id of a labeled statement (`statement_labeled_get_label`).
Modelled from the spec: the getter yields the user label's nonnegative
identifier id (the accessor itself is not among the given sources). -/
def statement_labeled_get_label (labelId : Nat) : Nat := labelId

/-- Label id of a goto statement (`statement_goto_get_label`).  Modelled
from the spec: the getter yields the user label's nonnegative identifier id
(the accessor itself is not among the given sources). -/
def statement_goto_get_label (labelId : Nat) : Nat := labelId

/-- Return statement lowering (`emit_return_statement`): restore the
function-wide stack slot when dynamic arrays were emitted; inside `main`
nothing else is emitted (the return expression is suppressed); otherwise the
return value is emitted and returned by answer kind. -/
def emit_return_statement (r : Option EExpr) (info : Info) : Info × List Instr :=
  let (i1, l1) :=
    if info.wasDynamic then to_code_stack_load info (-1)
    else (info, ([] : List Instr))
  if i1.isMain then (i1, l1)
  else
    match r with
    | some e =>
      let (i3, l3) := emit_expression e { i1 with variableLocation := .lreg }
      let answer_type := eexpr_get_type e
      if i3.answerKind = .aconst && type_is_integer i3.sx answer_type then
        (i3, l1 ++ l3 ++ [.retInt i3.answerConst])
      else if i3.answerKind = .aconst && type_is_floating answer_type then
        (i3, l1 ++ l3 ++ [.retDouble i3.answerConstDouble])
      else if i3.answerKind = .areg then
        (i3, l1 ++ l3 ++ [.retReg i3.answerReg])
      else (i3, l1 ++ l3)
    | none => (i1, l1 ++ [.retVoid])

mutual

/-- Statement emission (`emit_statement`): dispatch over the statement
class.  Case, default and switch statements are not emitted (TODO in the C
sources); goto branches to the non-negated label id, break and continue
branch to the current break and continue labels. -/
def emit_statement (s : EStmt) (info : Info) : Info × List Instr :=
  match s with
  | .declStmt decls => emit_declaration_list decls info
  | .labeledS a b => emit_labeled_statement (.labeledS a b) info
  | .caseS _ => (info, [])
  | .defaultS _ => (info, [])
  | .compoundS stmts => emit_compound_statement (.compoundS stmts) false info
  | .exprStmt e => emit_expression e info
  | .nullS => (info, [])
  | .ifS a b c => emit_if_statement (.ifS a b c) info
  | .switchS _ _ => (info, [])
  | .whileS a b => emit_while_statement (.whileS a b) info
  | .doS a b => emit_do_statement (.doS a b) info
  | .forS a b c d => emit_for_statement (.forS a b c d) info
  | .gotoS labelId => (info, [.br (statement_goto_get_label labelId : Int)])
  | .continueS => (info, [.br info.labelContinue])
  | .breakS => (info, [.br info.labelBreak])
  | .returnS r => emit_return_statement r info
termination_by (sizeOf s, 1)

/-- Labeled statement lowering (`emit_labeled_statement`): the user label is
negated, branched to and placed, then the substatement is emitted. -/
def emit_labeled_statement (s : EStmt) (info : Info) : Info × List Instr :=
  match s with
  | .labeledS labelId sub =>
    let label := -(statement_labeled_get_label labelId : Int)
    let (i1, l1) := emit_statement sub info
    (i1, [.br label, .labelI label] ++ l1)
  | _ => (info, [])
termination_by (sizeOf s, 0)

/-- Compound statement lowering (`emit_compound_statement`): a fresh block
number keys a stack save at entry and a stack restore after the body, except
for function bodies. -/
def emit_compound_statement (s : EStmt) (is_function_body : Bool)
    (info : Info) : Info × List Instr :=
  match s with
  | .compoundS stmts =>
    let block_num := info.blockNum
    let i0 := { info with blockNum := info.blockNum + 1 }
    let (i1, l1) :=
      if is_function_body = false then to_code_stack_save i0 block_num
      else (i0, ([] : List Instr))
    let (i2, l2) := emit_stmt_list stmts i1
    let (i3, l3) :=
      if is_function_body = false then to_code_stack_load i2 block_num
      else (i2, ([] : List Instr))
    (i3, l1 ++ l2 ++ l3)
  | _ => (info, [])
termination_by (sizeOf s, 0)

/-- Substatement loop of `emit_compound_statement`. -/
def emit_stmt_list (l : List EStmt) (info : Info) : Info × List Instr :=
  match l with
  | [] => (info, [])
  | s :: rest =>
    let (i1, l1) := emit_statement s info
    let (i2, l2) := emit_stmt_list rest i1
    (i2, l1 ++ l2)
termination_by (sizeOf l, 0)

/-- If statement lowering (`emit_if_statement`): fresh then, else and end
labels; the true and false labels are saved at entry and restored at exit. -/
def emit_if_statement (s : EStmt) (info : Info) : Info × List Instr :=
  match s with
  | .ifS cond thn els =>
    let old_label_true := info.labelTrue
    let old_label_false := info.labelFalse
    let label_if := info.labelNum
    let label_else := info.labelNum + 1
    let label_end := info.labelNum + 2
    let (i1, l1) := emit_expression cond
      { info with
          labelNum := info.labelNum + 3
          labelTrue := label_if
          labelFalse := label_else
          variableLocation := .lfree }
    let (i2, l2) := check_type_and_branch i1
    let (i3, l3) := emit_statement thn i2
    let (i4, l4) :=
      match els with
      | some e => emit_statement e i3
      | none => (i3, ([] : List Instr))
    ({ i4 with labelTrue := old_label_true, labelFalse := old_label_false },
      l1 ++ l2 ++ [.labelI label_if] ++ l3
        ++ [.br label_end, .labelI label_else] ++ l4
        ++ [.br label_end, .labelI label_end])
  | _ => (info, [])
termination_by (sizeOf s, 0)

/-- While statement lowering (`emit_while_statement`): break goes to the end
label, continue goes to the body-entry label; all four context labels are
saved at entry and restored at exit. -/
def emit_while_statement (s : EStmt) (info : Info) : Info × List Instr :=
  match s with
  | .whileS cond body =>
    let old_label_true := info.labelTrue
    let old_label_false := info.labelFalse
    let old_label_break := info.labelBreak
    let old_label_continue := info.labelContinue
    let label_condition := info.labelNum
    let label_body := info.labelNum + 1
    let label_end := info.labelNum + 2
    let (i1, l1) := emit_expression cond
      { info with
          labelNum := info.labelNum + 3
          labelTrue := label_body
          labelFalse := label_end
          labelBreak := label_end
          labelContinue := label_body
          variableLocation := .lfree }
    let (i2, l2) := check_type_and_branch i1
    let (i3, l3) := emit_statement body i2
    ({ i3 with
        labelTrue := old_label_true
        labelFalse := old_label_false
        labelBreak := old_label_break
        labelContinue := old_label_continue },
      [.br label_condition, .labelI label_condition] ++ l1 ++ l2
        ++ [.labelI label_body] ++ l3
        ++ [.br label_condition, .labelI label_end])
  | _ => (info, [])
termination_by (sizeOf s, 0)

/-- Do statement lowering (`emit_do_statement`). -/
def emit_do_statement (s : EStmt) (info : Info) : Info × List Instr :=
  match s with
  | .doS body cond =>
    let old_label_true := info.labelTrue
    let old_label_false := info.labelFalse
    let old_label_break := info.labelBreak
    let old_label_continue := info.labelContinue
    let label_loop := info.labelNum
    let label_end := info.labelNum + 1
    let (i1, l1) := emit_statement body
      { info with
          labelNum := info.labelNum + 2
          labelTrue := label_loop
          labelFalse := label_end
          labelBreak := label_end
          labelContinue := label_loop }
    let (i2, l2) := emit_expression cond { i1 with variableLocation := .lfree }
    let (i3, l3) := check_type_and_branch i2
    ({ i3 with
        labelTrue := old_label_true
        labelFalse := old_label_false
        labelBreak := old_label_break
        labelContinue := old_label_continue },
      [.br label_loop, .labelI label_loop] ++ l1 ++ l2 ++ l3
        ++ [.labelI label_end])
  | _ => (info, [])
termination_by (sizeOf s, 0)

/-- For statement lowering (`emit_for_statement`).  The emitter allocates
condition, body, increment and end labels; break is lowered to the end
label and continue to the body-entry label (`label_body`, not the increment
label); all four context labels are saved at entry and restored at exit. -/
def emit_for_statement (s : EStmt) (info : Info) : Info × List Instr :=
  match s with
  | .forS ini cond incr body =>
    let old_label_true := info.labelTrue
    let old_label_false := info.labelFalse
    let old_label_break := info.labelBreak
    let old_label_continue := info.labelContinue
    let label_condition := info.labelNum
    let label_body := info.labelNum + 1
    let label_incr := info.labelNum + 2
    let label_end := info.labelNum + 3
    let i0 := { info with
      labelNum := info.labelNum + 4
      labelTrue := label_body
      labelFalse := label_end
      labelBreak := label_end
      labelContinue := label_body }
    let (i1, l1) :=
      match ini with
      | some st => emit_statement st i0
      | none => (i0, ([] : List Instr))
    let (i2, l2) :=
      match cond with
      | some c => emit_expression c i1
      | none => (i1, ([] : List Instr))
    let (i3, l3) := check_type_and_branch i2
    let (i4, l4) :=
      match incr with
      | some c => emit_expression c i3
      | none => (i3, ([] : List Instr))
    let (i5, l5) := emit_statement body i4
    ({ i5 with
        labelTrue := old_label_true
        labelFalse := old_label_false
        labelBreak := old_label_break
        labelContinue := old_label_continue },
      l1 ++ [.br label_condition, .labelI label_condition] ++ l2 ++ l3
        ++ [.labelI label_incr] ++ l4
        ++ [.br label_condition, .labelI label_body] ++ l5
        ++ [.br label_incr, .labelI label_end])
  | _ => (info, [])
termination_by (sizeOf s, 0)

end

/-- Function definition node: identifier, whether the identifier is the
program entry (`ref_ident == sx->ref_main`), declared return type,
parameters, and the function-body compound. -/
structure FuncDef where
  id : Nat
  isMainF : Bool
  retTy : ItemT
  params : List (Nat × ItemT)
  body : EStmt
deriving Repr

/-- Parameter prologue of `emit_function_definition`: an alloca and a store
per parameter. -/
def emit_param_stores : List (Nat × ItemT) → Nat → List Instr
  | [], _ => []
  | (pid, _) :: rest, i =>
    [.paramAlloca pid, .paramStore i pid] ++ emit_param_stores rest (i + 1)

/-- Function definition lowering (`emit_function_definition`): the return
type of `main` is forced to integer; the body is emitted as a function-body
compound (no outer stack save); void functions restore the dynamic slot and
return void; `main` always ends in `ret i32 0`. -/
def emit_function_definition (f : FuncDef) (info : Info) : Info × List Instr :=
  let ret_type := if f.isMainF then TYPE_INTEGER else f.retTy
  let i0 := { info with wasDynamic := false }
  let i1 := if f.isMainF then { i0 with isMain := true } else i0
  let header := [Instr.funcHeader f.id f.isMainF] ++ emit_param_stores f.params 0
  let (i2, l2) := emit_compound_statement f.body true i1
  let (i3, l3) :=
    if type_is_void ret_type then
      let (ia, la) :=
        if i2.wasDynamic then to_code_stack_load i2 (-1)
        else (i2, ([] : List Instr))
      (ia, la ++ [Instr.retVoid])
    else if f.isMainF then
      ({ i2 with isMain := false }, [Instr.retInt 0])
    else (i2, ([] : List Instr))
  (i3, header ++ l2 ++ l3 ++ [.closeBrace])

/-!
Concrete fixtures and specification-side helper definitions used by the
theorems below.
-/

/-- Empty syntax table fixture. -/
def sxEmpty : SynTab := ⟨[], [], []⟩

/-- The integer fold table as the specification states it: each operator on
two integer literal payloads yields one literal, integer results computed
with two's-complement `item_t` semantics, comparisons and logical operators
yielding boolean literals. -/
def int_fold_literal (op : BinOp) (a b : Int) (loc : Loc) : BExpr :=
  match op with
  | .mulB => build_integer_literal_expression (mulItem a b) loc
  | .divB => build_integer_literal_expression (divItem a b) loc
  | .remB => build_integer_literal_expression (remItem a b) loc
  | .addB => build_integer_literal_expression (addItem a b) loc
  | .subB => build_integer_literal_expression (subItem a b) loc
  | .shlB => build_integer_literal_expression (shlItem a b) loc
  | .shrB => build_integer_literal_expression (shrItem a b) loc
  | .ltB => build_boolean_literal_expression (decide (a < b)) loc
  | .gtB => build_boolean_literal_expression (decide (b < a)) loc
  | .leB => build_boolean_literal_expression (decide (a ≤ b)) loc
  | .geB => build_boolean_literal_expression (decide (b ≤ a)) loc
  | .eqB => build_boolean_literal_expression (decide (a = b)) loc
  | .neB => build_boolean_literal_expression (decide (a ≠ b)) loc
  | .andB => build_integer_literal_expression (andItem a b) loc
  | .xorB => build_integer_literal_expression (xorItem a b) loc
  | .orB => build_integer_literal_expression (orItem a b) loc
  | .logAnd => build_boolean_literal_expression (decide (a ≠ 0) && decide (b ≠ 0)) loc
  | .logOr => build_boolean_literal_expression (decide (a ≠ 0) || decide (b ≠ 0)) loc
  | _ => .broken

/-- The operators of the fold claim. -/
def foldable_int_ops : List BinOp :=
  [.mulB, .divB, .remB, .addB, .subB, .shlB, .shrB,
   .ltB, .gtB, .leB, .geB, .eqB, .neB,
   .andB, .xorB, .orB, .logAnd, .logOr]

/-- Syntax-table fixture for the enum-operand theorems: type id 0 is an
enum. -/
def sxEnum : SynTab := ⟨[.enumR], [], []⟩

/-- The claimed operators whose operand checks admit enum-typed operands:
arithmetic operands suffice for the first ten, scalar operands for the last
two. -/
def enum_fold_ops : List BinOp :=
  [.mulB, .divB, .addB, .subB,
   .ltB, .gtB, .leB, .geB, .eqB, .neB, .logAnd, .logOr]

/-- The claimed operators whose operand check requires integer-typed
operands on both sides, which excludes enum-typed operands. -/
def enum_rejected_ops : List BinOp :=
  [.remB, .shlB, .shrB, .andB, .xorB, .orB]

/-- Format string of `n` integer placeholders. -/
def fmtPlaceholders (n : Nat) : List Nat :=
  List.flatten (List.replicate n [CP_PERCENT, CP_I])

/-- Syntax-table fixture for the printf theorems: type id `0` is the string
type, the pool holds formats with 18, 19, 20 and 21 placeholders. -/
def sxPrintf : SynTab :=
  ⟨[.pointerR TYPE_CHARACTER],
   [fmtPlaceholders 18, fmtPlaceholders 19, fmtPlaceholders 20, fmtPlaceholders 21],
   []⟩

/-- A callee node for the printf theorems. -/
def printfCallee : BExpr := .identifier 0 7 ⟨0, 0⟩

/-- A printf argument vector: the format literal of pool index `idx`
followed by `n` integer literals. -/
def printfArgs (idx n : Nat) : List BExpr :=
  .literal 0 (.strL idx) ⟨1, 2⟩ ::
    List.replicate n (build_integer_literal_expression 1 ⟨3, 4⟩)

/-- Return-instruction test. -/
def isRet : Instr → Bool
  | .retVoid | .retInt _ | .retDouble _ | .retReg _ => true
  | _ => false

/-- Balance of one stack slot along the return exits of an instruction
sequence: at every return instruction the number of saves of the slot seen
so far must equal the number of restores of it. -/
def return_exits_balanced (slot : Int) : List Instr → Nat → Nat → Bool
  | [], _, _ => true
  | ins :: rest, saves, restores =>
    (if isRet ins then decide (saves = restores) else true)
      && return_exits_balanced slot rest
        (if ins = .stackSave slot then saves + 1 else saves)
        (if ins = .stackRestore slot then restores + 1 else restores)

/-- The four structured conditional and loop statements of the
label-context claim. -/
def is_structured_conditional : EStmt → Bool
  | .ifS _ _ _ | .whileS _ _ | .doS _ _ | .forS _ _ _ _ => true
  | _ => false

/-!
Claim theorems.
-/

/-- C9: `check_assignment_operands` accepts a broken initializer for every
expected type: it returns acceptance, leaves the node untouched, and emits
no diagnostic (in particular no `wrong_init`), because the broken-node check
precedes every other test. -/
theorem c9_broken_initializer_accepted (sx : SynTab) (expected_type : ItemT) :
    check_assignment_operands sx expected_type .broken = (true, .broken, []) := by
  simp [check_assignment_operands, node_is_correct]

/-- C4: the binary fold takes the literal branch for a division of two
integer literals even when the right literal is zero: both operand subtrees
are removed, a literal result node is produced (here through the Lean
totalization of the host division, which on the real host is undefined
behavior), the expression is not left as an unfolded binary node, and no
diagnostic is emitted — there is no zero-divisor branch in the fold at all. -/
theorem c4_zero_divisor_is_folded :
    build_binary_expression sxEmpty (.literal TYPE_INTEGER (.intL 1) ⟨0, 1⟩)
        (.literal TYPE_INTEGER (.intL 0) ⟨2, 3⟩) .divB ⟨1, 2⟩
      = (⟨.literal TYPE_INTEGER (.intL 0) ⟨0, 3⟩, true, true⟩, []) := by
  simp [build_binary_expression, fold_binary_expression, operation_is_assignment,
    usual_arithmetic_conversions, expression_get_type, expression_get_class,
    type_is_integer, type_is_arithmetic, type_is_floating, type_get_class,
    type_lookup, node_is_correct, node_get_location,
    build_integer_literal_expression, expression_literal_get_integer,
    divItem, itemWrap, Int.tdiv,
    TYPE_VOID, TYPE_BOOLEAN, TYPE_CHARACTER, TYPE_INTEGER, TYPE_FLOATING,
    TYPE_NULL_POINTER, TYPE_FILE, TYPE_VARARG]

/-- C5 counterexample: the remainder operator applied by the builder to two
enum-typed literal operands does not fold to a literal: `%` requires
integer-typed operands on both sides, and `type_is_integer` excludes enum
types, so `build_binary_expression` emits the binary type-check diagnostic
and returns a broken node — no literal is produced and neither operand
subtree is removed, contrary to the claim's enum case. -/
theorem c5_enum_rem_rejected :
    build_binary_expression sxEnum (.literal 0 (.intL 1) ⟨0, 1⟩)
        (.literal 0 (.intL 2) ⟨2, 3⟩) .remB ⟨1, 2⟩
      = (⟨.broken, false, false⟩, [.typecheck_binary_expr]) := by
  simp [build_binary_expression, operation_is_assignment,
    expression_get_type, node_is_correct, type_is_integer, type_get_class,
    type_lookup, sxEnum,
    TYPE_VOID, TYPE_BOOLEAN, TYPE_CHARACTER, TYPE_INTEGER, TYPE_FLOATING,
    TYPE_NULL_POINTER, TYPE_FILE, TYPE_VARARG]

/-- C5 amended: applied by the builder to two literal operands of integer
type, every one of the 18 listed operators folds to a single literal node —
integer-typed for the arithmetic and bitwise operators, boolean-typed for
the comparisons and logical operators — whose value is the two's-complement
`item_t` result, with both operand subtrees removed and no diagnostic
(stated under the nonzero-divisor, division-overflow and shift-range
conditions where the host arithmetic is defined).  For two literal operands
of enum type the same fold happens for the twelve operators whose operand
checks admit enums — `*`, `/`, `+`, `-`, the six comparisons, `&&` and `||`
(the fold branch treats the enum class exactly like the integer class) —
while `%`, `<<`, `>>`, `&`, `^` and `|` require integer-typed operands and
are rejected with a type-check diagnostic before any fold is attempted. -/
theorem c5_literal_fold (sx : SynTab) (a b : Int) (op : BinOp)
    (l1 l2 oploc : Loc) :
    (op ∈ foldable_int_ops →
      (op = .divB ∨ op = .remB → b ≠ 0 ∧ ¬(a = -(2 ^ 63) ∧ b = -1)) →
      (op = .shlB ∨ op = .shrB → 0 ≤ b ∧ b < 64) →
      build_binary_expression sx (.literal TYPE_INTEGER (.intL a) l1)
          (.literal TYPE_INTEGER (.intL b) l2) op oploc
        = (⟨int_fold_literal op a b ⟨l1.b, l2.e⟩, true, true⟩, []))
    ∧ (op ∈ enum_fold_ops →
      (op = .divB → b ≠ 0 ∧ ¬(a = -(2 ^ 63) ∧ b = -1)) →
      build_binary_expression sxEnum (.literal 0 (.intL a) l1)
          (.literal 0 (.intL b) l2) op oploc
        = (⟨int_fold_literal op a b ⟨l1.b, l2.e⟩, true, true⟩, []))
    ∧ (op ∈ enum_rejected_ops →
      build_binary_expression sxEnum (.literal 0 (.intL a) l1)
          (.literal 0 (.intL b) l2) op oploc
        = (⟨.broken, false, false⟩, [.typecheck_binary_expr])) := by
  refine ⟨?_, ?_, ?_⟩
  · intro hop _hdiv _hshift
    fin_cases hop <;>
      simp [build_binary_expression, fold_binary_expression, operation_is_assignment,
        usual_arithmetic_conversions, expression_get_type, expression_get_class,
        type_is_integer, type_is_arithmetic, type_is_scalar, type_is_floating,
        type_is_pointer, type_is_null_pointer, type_get_class, type_lookup,
        node_is_correct, node_get_location, int_fold_literal,
        build_integer_literal_expression, build_boolean_literal_expression,
        expression_literal_get_integer, expression_binary,
        TYPE_VOID, TYPE_BOOLEAN, TYPE_CHARACTER, TYPE_INTEGER, TYPE_FLOATING,
        TYPE_NULL_POINTER, TYPE_FILE, TYPE_VARARG]
  · intro hop _hdiv
    fin_cases hop <;>
      simp [build_binary_expression, fold_binary_expression, operation_is_assignment,
        usual_arithmetic_conversions, expression_get_type, expression_get_class,
        type_is_integer, type_is_arithmetic, type_is_scalar, type_is_floating,
        type_is_pointer, type_is_null_pointer, type_get_class, type_lookup,
        node_is_correct, node_get_location, int_fold_literal,
        build_integer_literal_expression, build_boolean_literal_expression,
        expression_literal_get_integer, expression_binary, sxEnum,
        TYPE_VOID, TYPE_BOOLEAN, TYPE_CHARACTER, TYPE_INTEGER, TYPE_FLOATING,
        TYPE_NULL_POINTER, TYPE_FILE, TYPE_VARARG]
  · intro hop
    fin_cases hop <;>
      simp [build_binary_expression, operation_is_assignment,
        expression_get_type, node_is_correct, type_is_integer,
        type_get_class, type_lookup, sxEnum,
        TYPE_VOID, TYPE_BOOLEAN, TYPE_CHARACTER, TYPE_INTEGER, TYPE_FLOATING,
        TYPE_NULL_POINTER, TYPE_FILE, TYPE_VARARG]

/-- Witness for the fold and rejection theorem at concrete instances: an
integer division folds, an enum multiplication folds, and an enum bitwise
conjunction is rejected. -/
theorem c5_literal_fold_witness :
    (build_binary_expression sxEmpty (.literal TYPE_INTEGER (.intL 7) ⟨0, 1⟩)
        (.literal TYPE_INTEGER (.intL 2) ⟨2, 3⟩) .divB ⟨1, 2⟩
      = (⟨int_fold_literal .divB 7 2 ⟨0, 3⟩, true, true⟩, []))
    ∧ (build_binary_expression sxEnum (.literal 0 (.intL 3) ⟨0, 1⟩)
        (.literal 0 (.intL 4) ⟨2, 3⟩) .mulB ⟨1, 2⟩
      = (⟨int_fold_literal .mulB 3 4 ⟨0, 3⟩, true, true⟩, []))
    ∧ (build_binary_expression sxEnum (.literal 0 (.intL 3) ⟨0, 1⟩)
        (.literal 0 (.intL 4) ⟨2, 3⟩) .andB ⟨1, 2⟩
      = (⟨.broken, false, false⟩, [.typecheck_binary_expr])) :=
  ⟨(c5_literal_fold sxEmpty 7 2 .divB ⟨0, 1⟩ ⟨2, 3⟩ ⟨1, 2⟩).1
      (by decide) (by decide) (by decide),
   (c5_literal_fold sxEmpty 3 4 .mulB ⟨0, 1⟩ ⟨2, 3⟩ ⟨1, 2⟩).2.1
      (by decide) (by decide),
   (c5_literal_fold sxEmpty 3 4 .andB ⟨0, 1⟩ ⟨2, 3⟩ ⟨1, 2⟩).2.2 (by decide)⟩

/-- Literal fixture for the cast idempotence counterexample. -/
def c8e : BExpr := .literal TYPE_INTEGER (.intL 5) ⟨0, 1⟩

/-- C8 counterexample: applied with a non-floating target to a literal of a
different type, `build_cast_expression` is not idempotent: the literal
branch rewrites the node to a floating literal on each application (the
second application rereads the payload of an already floating literal as an
integer), so the second application yields a different node. -/
theorem c8_not_idempotent_for_nonfloat_target :
    build_cast_expression TYPE_BOOLEAN (build_cast_expression TYPE_BOOLEAN c8e)
      ≠ build_cast_expression TYPE_BOOLEAN c8e := by
  simp [c8e, build_cast_expression, node_is_correct, expression_get_type,
    expression_get_class, node_get_location, expression_literal_get_integer,
    expression_cast, TYPE_BOOLEAN, TYPE_INTEGER, TYPE_FLOATING]

/-- C8 amended: cast insertion is a strict no-op when the operand's type
already equals the target, and it is idempotent whenever the target is the
floating type (the only target the builder ever uses) or the operand is not
a literal; only a non-floating target on a literal of a different type
escapes (see the counterexample). -/
theorem c8_cast_idempotent (target_type : ItemT) (e : BExpr)
    (hc : node_is_correct e = true)
    (h : target_type = TYPE_FLOATING ∨ expression_get_class e ≠ .literalC
        ∨ expression_get_type e = target_type) :
    build_cast_expression target_type (build_cast_expression target_type e)
        = build_cast_expression target_type e
      ∧ (expression_get_type e = target_type →
          build_cast_expression target_type e = e) := by
  constructor
  · by_cases hty : target_type = expression_get_type e
    · have h1 : build_cast_expression target_type e = e := by
        simp [build_cast_expression, hc, hty]
      rw [h1]
      exact h1
    · by_cases hcl : expression_get_class e = .literalC
      · have htf : target_type = TYPE_FLOATING := by
          rcases h with h | h | h
          · exact h
          · exact absurd hcl h
          · exact absurd h.symm hty
        subst htf
        have h1 : build_cast_expression TYPE_FLOATING e
            = .literal TYPE_FLOATING
                (.floatL ((expression_literal_get_integer e : Int) : Rat))
                (node_get_location e) := by
          simp [build_cast_expression, hc, hcl, hty]
        rw [h1]
        simp [build_cast_expression, node_is_correct, expression_get_type]
      · have h1 : build_cast_expression target_type e
            = expression_cast target_type (expression_get_type e) e
                (node_get_location e) := by
          simp [build_cast_expression, hc, hcl, hty]
        rw [h1]
        simp [build_cast_expression, expression_cast, node_is_correct,
          expression_get_type]
  · intro hty
    simp [build_cast_expression, hc, hty]

/-- Literal fixture for the cast idempotence witness. -/
def c8w : BExpr := .literal TYPE_INTEGER (.intL 3) ⟨0, 1⟩

/-- Witness for the amended cast idempotence theorem at the floating
target. -/
theorem c8_cast_idempotent_witness :
    build_cast_expression TYPE_FLOATING (build_cast_expression TYPE_FLOATING c8w)
        = build_cast_expression TYPE_FLOATING c8w
      ∧ (expression_get_type c8w = TYPE_FLOATING →
          build_cast_expression TYPE_FLOATING c8w = c8w) :=
  c8_cast_idempotent TYPE_FLOATING c8w rfl (Or.inl rfl)

/-- C2 counterexample: a printf call whose string literal holds exactly
twenty placeholders together with twenty matching value arguments (twenty
one arguments in total) is rejected with `too_many_printf_args` by the
up-front total-argument check of `build_printf_expression`, before the
format string is even scanned. -/
theorem c2_twenty_placeholders_rejected :
    build_printf_expression sxPrintf printfCallee (printfArgs 2 20) ⟨9, 9⟩
      = (.broken, [.too_many_printf_args]) := by
  simp [build_printf_expression, printfArgs, MAX_PRINTF_ARGS]

/-- C2 amended: `build_printf_expression` rejects any call with twenty or
more total arguments (format string included), so at most eighteen
placeholders with eighteen matching value arguments can succeed; a call
with eighteen placeholders and eighteen integer arguments is accepted with
no diagnostic, a call with nineteen of each is already rejected with
`too_many_printf_args`; the scanner `evaluate_args` itself accepts a format
of exactly twenty placeholders and first raises `too_many_printf_args` at
the twenty-first. -/
theorem c2_printf_limits :
    build_printf_expression sxPrintf printfCallee (printfArgs 0 18) ⟨9, 9⟩
        = (expression_call TYPE_INTEGER printfCallee (printfArgs 0 18) ⟨0, 9⟩, [])
      ∧ build_printf_expression sxPrintf printfCallee (printfArgs 1 19) ⟨9, 9⟩
        = (.broken, [.too_many_printf_args])
      ∧ evaluate_args sxPrintf (.literal 0 (.strL 2) ⟨1, 2⟩)
        = (List.replicate 20 TYPE_INTEGER, [])
      ∧ evaluate_args sxPrintf (.literal 0 (.strL 3) ⟨1, 2⟩)
        = ([], [.too_many_printf_args]) := by
  refine ⟨?_, ?_, ?_, ?_⟩
  · simp [build_printf_expression, printfArgs, MAX_PRINTF_ARGS, sxPrintf,
      printfCallee, fmtPlaceholders, expression_get_class, expression_get_type,
      type_is_string, type_lookup, TYPE_CHARACTER, evaluate_args,
      evaluate_args_scan, string_get, expression_literal_get_string,
      CP_PERCENT, CP_I, CP_TSE, CP_C, CP_EL, CP_F, CP_VE, CP_S, CP_ES,
      TYPE_INTEGER, TYPE_FLOATING, type_string, printf_check_args,
      check_assignment_operands, node_is_correct, type_is_structure,
      type_is_array, type_is_floating, type_is_integer, type_is_enum,
      type_is_enum_field, type_is_pointer, type_is_null_pointer,
      type_get_class, build_integer_literal_expression, expression_call,
      node_get_location, List.replicate, TYPE_VOID, TYPE_BOOLEAN,
      TYPE_NULL_POINTER, TYPE_FILE, TYPE_VARARG]
  · simp [build_printf_expression, printfArgs, MAX_PRINTF_ARGS]
  · simp [evaluate_args, evaluate_args_scan, sxPrintf, string_get,
      expression_literal_get_string, fmtPlaceholders, List.replicate,
      CP_PERCENT, CP_I, CP_TSE, CP_C, CP_EL, CP_F, CP_VE, CP_S, CP_ES,
      MAX_PRINTF_ARGS, TYPE_INTEGER]
  · simp [evaluate_args, evaluate_args_scan, sxPrintf, string_get,
      expression_literal_get_string, fmtPlaceholders, List.replicate,
      CP_PERCENT, CP_I, CP_TSE, CP_C, CP_EL, CP_F, CP_VE, CP_S, CP_ES,
      MAX_PRINTF_ARGS, TYPE_INTEGER]

/-- Encoder fixture for the compound-balance theorem. -/
def infoC1 : Info := { initInfo sxEmpty with blockNum := 5 }

/-- C1: a non-function-body compound containing a return statement is
bracketed textually (stacksave of the fresh block slot before the body and
stackrestore of the same slot after it), but the return path leaves the
compound before the restore: the emitted sequence places the return between
the save and the restore, and the save/restore balance fails on that exit
path (`emit_return_statement` restores only the function-wide slot `-1`,
and only when dynamic arrays exist). -/
theorem c1_compound_return_unbalanced :
    (emit_statement (.compoundS [.returnS none]) infoC1).2
        = [.stackSave 5, .retVoid, .stackRestore 5]
      ∧ return_exits_balanced 5 [.stackSave 5, .retVoid, .stackRestore 5] 0 0
        = false := by
  constructor
  · simp [emit_statement, emit_compound_statement, emit_stmt_list,
      emit_return_statement, to_code_stack_save, to_code_stack_load,
      infoC1, initInfo]
  · decide

/-- C7 counterexample: for user label id `1`, the labeled statement places
label `-1` (the negation), but the goto emits a branch to `1`, not to `-1`:
the goto's branch target is not the label actually placed for its target. -/
theorem c7_goto_target_not_negated :
    (emit_statement (.gotoS 1) (initInfo sxEmpty)).2 = [.br 1]
      ∧ (emit_statement (.labeledS 1 .nullS) (initInfo sxEmpty)).2
        = [.br (-1), .labelI (-1)]
      ∧ ((1 : Int) ≠ -1) := by
  refine ⟨?_, ?_, by decide⟩
  · simp [emit_statement, statement_goto_get_label]
  · simp [emit_statement, emit_labeled_statement, statement_labeled_get_label]

/-- C7 amended: a labeled statement encodes its user label as the negated
label number, emitting a branch to and placing that negative label before
the substatement (so placed user labels never collide with the positive
generator-allocated labels); a goto statement, however, branches to the
non-negated label id, which does not match the label placed for it. -/
theorem c7_user_label_encoding (n : Nat) (sub : EStmt) (info : Info) :
    (emit_statement (.labeledS n sub) info).2
        = [.br (-(n : Int)), .labelI (-(n : Int))] ++ (emit_statement sub info).2
      ∧ (emit_statement (.gotoS n) info).2 = [.br (n : Int)] := by
  constructor
  · rcases h : emit_statement sub info with ⟨i1, l1⟩
    simp [emit_statement, emit_labeled_statement, statement_labeled_get_label, h]
  · simp [emit_statement, statement_goto_get_label]

/-- C6: function-definition lowering of `main` always ends the emitted body
with `ret i32 0` (the declared return type is overridden to integer), and a
return statement emitted while lowering `main` suppresses its expression
entirely: nothing is emitted for it beyond the function-wide stack restore
when dynamic arrays exist — no value is computed and no ret is placed. -/
theorem c6_main_always_ret_zero :
    (∀ (f : FuncDef) (info : Info), f.isMainF = true →
      (emit_function_definition f info).2
        = Instr.funcHeader f.id true :: emit_param_stores f.params 0
          ++ (emit_compound_statement f.body true
              { info with wasDynamic := false, isMain := true }).2
          ++ [.retInt 0, .closeBrace])
    ∧ (∀ (r : Option EExpr) (info : Info), info.isMain = true →
      (emit_statement (.returnS r) info).2
        = if info.wasDynamic then [.stackRestore (-1)] else []) := by
  constructor
  · intro f info hmain
    rcases h : emit_compound_statement f.body true
      { info with wasDynamic := false, isMain := true } with ⟨i2, l2⟩
    simp [emit_function_definition, hmain, type_is_void, TYPE_INTEGER, TYPE_VOID, h]
  · intro r info hmain
    cases hw : info.wasDynamic <;>
      cases r <;>
        simp [emit_statement, emit_return_statement, to_code_stack_load, hw, hmain]

/-- Function fixture for the main-lowering witness: declared non-integer
return type and a value-returning return statement in the body. -/
def c6f : FuncDef :=
  ⟨1, true, TYPE_FLOATING, [], .compoundS [.returnS (some (.litE TYPE_INTEGER (.intV 5)))]⟩

/-- Encoder fixture for the main-lowering witness. -/
def c6info : Info := { initInfo sxEmpty with isMain := true }

/-- Witness for the main-lowering theorem at concrete inputs. -/
theorem c6_main_always_ret_zero_witness :
    (emit_function_definition c6f (initInfo sxEmpty)).2
        = Instr.funcHeader 1 true :: (emit_compound_statement c6f.body true
            { initInfo sxEmpty with wasDynamic := false, isMain := true }).2
          ++ [.retInt 0, .closeBrace]
      ∧ (emit_statement (.returnS (some (.litE TYPE_INTEGER (.intV 5)))) c6info).2
        = [] := by
  constructor
  · have h := c6_main_always_ret_zero.1 c6f (initInfo sxEmpty) rfl
    simpa [c6f, emit_param_stores] using h
  · have h := c6_main_always_ret_zero.2
      (some (.litE TYPE_INTEGER (.intV 5))) c6info rfl
    simpa [c6info, initInfo] using h

/-- Syntax-table fixture for the for-statement theorem: identifier 3 is a
local. -/
def sxC3 : SynTab := ⟨[], [], [3]⟩

/-- A for statement whose body is a single continue. -/
def c3for : EStmt := .forS none (some (.identE TYPE_INTEGER 3)) none .continueS

/-- C3: lowering `for (; x; ) continue;` from the initial encoder state
allocates labels 1 (condition), 2 (body), 3 (increment) and 4 (end); the
emitter sets the continue label to the body-entry label 2, so the branch
emitted for the continue (ninth instruction) targets label 2 — the body
entry, which is placed just before it — and not the increment label 3; the
claim and spec say a continue inside a for body branches to the increment
block. -/
theorem c3_for_continue_targets_body_entry :
    (emit_statement c3for (initInfo sxC3)).2
        = [.br 1, .labelI 1, .loadI 1 3 false true,
           .opRegConstI 2 .neB 1 0, .condBr 2 2 4,
           .labelI 3, .br 1, .labelI 2, .br 2, .br 3, .labelI 4]
      ∧ (Instr.br 2) ≠ .br 3 := by
  constructor
  · simp [c3for, emit_statement, emit_for_statement, check_type_and_branch,
      emit_expression, sxC3, initInfo, ident_is_local, type_is_array,
      type_is_string, type_is_integer, type_get_class, type_lookup,
      TYPE_INTEGER, TYPE_VOID, TYPE_BOOLEAN, TYPE_CHARACTER, TYPE_FLOATING,
      TYPE_NULL_POINTER, TYPE_FILE, TYPE_VARARG]
  · decide

/-- The label-context fields of the encoder state. -/
def label_ctx (i : Info) : Int × Int × Int × Int :=
  (i.labelTrue, i.labelFalse, i.labelBreak, i.labelContinue)

/-- Encoder fixture for the label-context counterexample. -/
def infoC10 : Info := { initInfo sxEmpty with labelTrue := 10, labelFalse := 20 }

/-- C10 counterexample: not every statement emitter leaves the label context
unchanged — an expression statement whose expression is a logical not swaps
the true and false labels while emitting its operand and never restores
them, so the statement emitter returns with `label_true` and `label_false`
permanently exchanged (entry state had label_true 10, label_false 20). -/
theorem c10_lognot_swaps_labels_unrestored :
    (emit_statement
        (.exprStmt (.unaryE TYPE_BOOLEAN .lognot (.litE TYPE_INTEGER (.intV 0))))
        infoC10).1.labelTrue = 20
      ∧ infoC10.labelTrue = 10 ∧ ((10 : Int) ≠ 20) := by
  refine ⟨?_, rfl, by decide⟩
  simp only [emit_statement, emit_expression, infoC10, initInfo]
  split_ifs <;> rfl

/-- C10 amended: the four structured conditional and loop emitters do
restore what they save — while, do and for save all four label-context
fields (`label_true`, `label_false`, `label_break`, `label_continue`) at
entry and restore them before returning, while the if emitter saves and
restores only `label_true` and `label_false` — so across each of these four
statements the restored fields equal their entry values regardless of what
the condition and substatement emissions did to them. -/
theorem c10_structured_label_restore (info : Info) :
    (∀ (c : EExpr) (t : EStmt) (e : Option EStmt),
      (emit_statement (.ifS c t e) info).1.labelTrue = info.labelTrue
        ∧ (emit_statement (.ifS c t e) info).1.labelFalse = info.labelFalse)
    ∧ (∀ (c : EExpr) (b : EStmt),
      label_ctx (emit_statement (.whileS c b) info).1 = label_ctx info)
    ∧ (∀ (b : EStmt) (c : EExpr),
      label_ctx (emit_statement (.doS b c) info).1 = label_ctx info)
    ∧ (∀ (ini : Option EStmt) (c u : Option EExpr) (b : EStmt),
      label_ctx (emit_statement (.forS ini c u b) info).1 = label_ctx info) := by
  refine ⟨?_, ?_, ?_, ?_⟩
  · intro c t e
    simp only [emit_statement, emit_if_statement]
    repeat' split
    all_goals simp
  · intro c b
    simp only [emit_statement, emit_while_statement]
    repeat' split
    all_goals simp [label_ctx]
  · intro b c
    simp only [emit_statement, emit_do_statement]
    repeat' split
    all_goals simp [label_ctx]
  · intro ini c u b
    simp only [emit_statement]
    rw [emit_for_statement.eq_def]
    repeat' split
    all_goals simp [label_ctx]
